import Mathlib

/-!
Shallow embedding of the MIAT forensic multimedia analyzer.

The development embeds, faithfully to the Python source:
  * the Python value / dict model used by the parsers (values may be
    None, bool, int, str, bytes, list or dict);
  * the bit-level cursor of the bitstring library together with the
    read helpers of src/parsers/codecs/video/h264_parser.py and
    src/parsers/codecs/video/hevc_parser.py (the H.264 read_ue_safe
    re-raises ReadError, every other helper substitutes None);
  * emulation-prevention-byte removal (identical in both parser files);
  * the H.264 NAL-unit / SPS / VUI / HRD / SEI / slice-header parsers;
  * the H.265 NAL framer, short-term reference picture set parser and
    slice-segment-header parser;
  * the Apple Photos trim analyzer of src/analyze/engines/apple.py
    (duplicated inline in src/cli/main.py).

Machine integers do not overflow in the Python source (Python ints are
unbounded), so Nat / Int are used directly.
-/

namespace Miat

/-- Python runtime errors that the embedded code can raise. -/
inductive PyErr where
  | readError
  | valueError
  | typeError
  | keyError
  | indexError
  | attributeError
  | fuel
deriving DecidableEq, Repr

/-- Model of a Python value as stored in the parser dictionaries. -/
inductive PyVal where
  | none
  | b (x : Bool)
  | n (x : Nat)
  | i (x : Int)
  | s (x : String)
  | bytes (xs : List Nat)
  | list (xs : List PyVal)
  | dict (xs : List (String × PyVal))

/-- Python dictionaries with string keys, in insertion order. -/
abbrev Dict := List (String × PyVal)

/-- Lookup of a key in a dict. -/
def dictGet? (d : Dict) (k : String) : Option PyVal :=
  match d with
  | [] => Option.none
  | (k₁, v) :: rest => if k₁ = k then some v else dictGet? rest k

/-- Python d.get(k, default). -/
def dictGetD (d : Dict) (k : String) (dv : PyVal) : PyVal :=
  (dictGet? d k).getD dv

/-- Python d[k] = v : update in place if the key exists, else append. -/
def dictSet (d : Dict) (k : String) (v : PyVal) : Dict :=
  match d with
  | [] => [(k, v)]
  | (k₁, v₁) :: rest => if k₁ = k then (k, v) :: rest else (k₁, v₁) :: dictSet rest k v

/-- Python d[k], raising KeyError when the key is absent. -/
def dictIndex (d : Dict) (k : String) : Except PyErr PyVal :=
  match dictGet? d k with
  | some v => .ok v
  | Option.none => .error .keyError

/-- Python truthiness of a value. -/
def pyTruthy : PyVal → Bool
  | .none => false
  | .b x => x
  | .n k => k != 0
  | .i m => m != 0
  | .s t => t != ""
  | .bytes xs => !xs.isEmpty
  | .list xs => !xs.isEmpty
  | .dict xs => !xs.isEmpty

/-- Coerce a Python value to a nonnegative machine count (used where the
source does arithmetic that requires an int, e.g. bit widths and loop
ranges); None raises TypeError exactly as Python arithmetic on None does. -/
def pyToNat : PyVal → Except PyErr Nat
  | .n k => .ok k
  | .b x => .ok (cond x 1 0)
  | _ => .error .typeError

/-- Coerce a Python value to an int; None raises TypeError. -/
def pyToInt : PyVal → Except PyErr Int
  | .n k => .ok (k : Int)
  | .i m => .ok m
  | .b x => .ok (cond x 1 0)
  | _ => .error .typeError

/-- Lift an optional unsigned read result into a Python value. -/
def optNat : Option Nat → PyVal
  | some k => .n k
  | Option.none => .none

/-- Lift an optional boolean read result into a Python value. -/
def optBool : Option Bool → PyVal
  | some x => .b x
  | Option.none => .none

/-- Lift an optional signed read result into a Python value. -/
def optInt : Option Int → PyVal
  | some m => .i m
  | Option.none => .none

/-- Python truthiness of an optional bool (None is falsy). -/
def optTruthy (o : Option Bool) : Bool := o.getD false

/-- Append an element to the list stored under a key, mirroring the
Python pattern d[k].append(v); the source always initializes the key
with a list first, any other shape is a Python runtime error. -/
def dictAppend (d : Dict) (k : String) (v : PyVal) : Except PyErr Dict :=
  match dictGet? d k with
  | some (.list xs) => .ok (dictSet d k (.list (xs ++ [v])))
  | some _ => .error .typeError
  | Option.none => .error .keyError

/-- Python mod with a positive divisor (result in [0, b)). -/
def pyMod (a : Int) (b : Int) : Int := ((a % b) + b) % b

/-! ## Bit-level cursor (bitstring.BitStream) -/

/-- A bit cursor over an immutable bit buffer, MSB-first per byte. -/
structure BitSt where
  data : List Bool
  pos : Nat
deriving Repr

/-- Bit length of the buffer (bitstring bs.len). -/
def BitSt.len (bs : BitSt) : Nat := bs.data.length

/-- Convert one byte (value < 256 in the source) to its 8 bits, MSB first. -/
def byteBits (x : Nat) : List Bool :=
  [x / 128 % 2 = 1, x / 64 % 2 = 1, x / 32 % 2 = 1, x / 16 % 2 = 1,
   x / 8 % 2 = 1, x / 4 % 2 = 1, x / 2 % 2 = 1, x % 2 = 1]

/-- Convert a byte string to its bit sequence. -/
def bytesToBits (xs : List Nat) : List Bool := xs.flatMap byteBits

/-- Unsigned MSB-first value of a bit sequence. -/
def binVal (l : List Bool) : Nat :=
  l.foldl (fun a x => 2 * a + (if x then 1 else 0)) 0

/-- Decode an unsigned Exp-Golomb code from the front of a bit sequence:
count leading zero bits z, consume the terminating one bit, then read z
more bits; returns (value, bits consumed) or none when the buffer ends
inside the code. -/
def ueBits (l : List Bool) : Option (Nat × Nat) :=
  let z := (l.takeWhile (fun x => x = false)).length
  if 2 * z + 1 ≤ l.length then
    some (2 ^ z - 1 + binVal ((l.drop (z + 1)).take z), 2 * z + 1)
  else
    Option.none

/-- Signed Exp-Golomb value of the unsigned code number k. -/
def seVal (k : Nat) : Int :=
  if k % 2 = 1 then ((k : Int) + 1) / 2 else -((k : Int) / 2)

/-- State-and-exception monad threading the bit cursor through a parse,
with Python exceptions surfacing in Except. -/
abbrev PM (α : Type) := StateT BitSt (Except PyErr) α

/-! ## Emulation prevention bytes

Embeds remove_emulation_prevention_bytes, which is textually identical
in h264_parser.py (lines 167-179) and hevc_parser.py (lines 68-80):
whenever the three-byte window 00 00 03 fits before the end of the
buffer, the two zero bytes are kept and the 03 byte is skipped;
otherwise one byte is copied. -/

/-- Embedding of remove_emulation_prevention_bytes. -/
def removeEmulationPreventionBytes : List Nat → List Nat
  | [] => []
  | [a] => [a]
  | [a, b] => [a, b]
  | a :: b :: c :: rest =>
    if a = 0 ∧ b = 0 ∧ c = 3 then
      a :: b :: removeEmulationPreventionBytes rest
    else
      a :: removeEmulationPreventionBytes (b :: c :: rest)

/-- Whether a byte string still contains a 00 00 03 window (scanning
with the same window rule as the stripper). -/
def containsEpbWindow : List Nat → Bool
  | [] => false
  | [_] => false
  | [_, _] => false
  | a :: b :: c :: rest =>
    if a = 0 ∧ b = 0 ∧ c = 3 then true else containsEpbWindow (b :: c :: rest)

/-! ## Bitstream read helpers

The two parser files define read helpers over a bitstring.BitStream.
They differ in one place: the H.264 read_ue_safe (h264_parser.py lines
25-33) re-raises ReadError on a truncated Exp-Golomb code (the
return None after the raise is unreachable), while the H.265 version
(hevc_parser.py lines 92-99) returns None.  On a failed read the
bitstring library leaves the cursor position unchanged. -/

namespace H264

/-- Embedding of h264_parser.read_uint_safe. -/
def readUintSafe (bits : Nat) : PM (Option Nat) := fun bs =>
  if bs.pos + bits ≤ bs.len then
    .ok (some (binVal ((bs.data.drop bs.pos).take bits)), ⟨bs.data, bs.pos + bits⟩)
  else
    .ok (Option.none, bs)

/-- Embedding of h264_parser.read_bool_safe (a one-bit read cannot fail
once pos is strictly inside the buffer). -/
def readBoolSafe : PM (Option Bool) := fun bs =>
  if bs.pos < bs.len then
    .ok (some (bs.data.getD bs.pos false), ⟨bs.data, bs.pos + 1⟩)
  else
    .ok (Option.none, bs)

/-- Embedding of h264_parser.read_ue_safe: when the cursor is strictly
inside the buffer but the Exp-Golomb code runs past the end, the
ReadError is re-raised (h264_parser.py line 31). -/
def readUeSafe : PM (Option Nat) := fun bs =>
  if bs.pos < bs.len then
    match ueBits (bs.data.drop bs.pos) with
    | some (v, c) => .ok (some v, ⟨bs.data, bs.pos + c⟩)
    | Option.none => .error .readError
  else
    .ok (Option.none, bs)

/-- Embedding of h264_parser.read_se_safe (ReadError is swallowed and
None returned). -/
def readSeSafe : PM (Option Int) := fun bs =>
  if bs.pos < bs.len then
    match ueBits (bs.data.drop bs.pos) with
    | some (k, c) => .ok (some (seVal k), ⟨bs.data, bs.pos + c⟩)
    | Option.none => .ok (Option.none, bs)
  else
    .ok (Option.none, bs)

end H264

namespace Hevc

/-- Embedding of hevc_parser.read_uint_safe. -/
def readUintSafe (bits : Nat) : PM (Option Nat) := fun bs =>
  if bs.pos + bits ≤ bs.len then
    .ok (some (binVal ((bs.data.drop bs.pos).take bits)), ⟨bs.data, bs.pos + bits⟩)
  else
    .ok (Option.none, bs)

/-- Embedding of hevc_parser.read_bool_safe. -/
def readBoolSafe : PM (Option Bool) := fun bs =>
  if bs.pos < bs.len then
    .ok (some (bs.data.getD bs.pos false), ⟨bs.data, bs.pos + 1⟩)
  else
    .ok (Option.none, bs)

/-- Embedding of hevc_parser.read_ue_safe (ReadError is swallowed and
None returned, unlike the H.264 variant). -/
def readUeSafe : PM (Option Nat) := fun bs =>
  if bs.pos < bs.len then
    match ueBits (bs.data.drop bs.pos) with
    | some (v, c) => .ok (some v, ⟨bs.data, bs.pos + c⟩)
    | Option.none => .ok (Option.none, bs)
  else
    .ok (Option.none, bs)

/-- Embedding of hevc_parser.read_se_safe. -/
def readSeSafe : PM (Option Int) := fun bs =>
  if bs.pos < bs.len then
    match ueBits (bs.data.drop bs.pos) with
    | some (k, c) => .ok (some (seVal k), ⟨bs.data, bs.pos + c⟩)
    | Option.none => .ok (Option.none, bs)
  else
    .ok (Option.none, bs)

end Hevc

/-- Python equality of a parsed value against an int literal:
None == k is False, True == 1 and False == 0 are True. -/
def pyEqNat (v : PyVal) (k : Nat) : Bool :=
  match v with
  | .n m => m == k
  | .i m => m == (k : Int)
  | .b x => (cond x 1 0) == k
  | _ => false

/-- Python is None test on a value. -/
def PyVal.isNone : PyVal → Bool
  | .none => true
  | _ => false

/-- Numeric view of a Python value (bool counts as 0/1 as in Python). -/
def pyNum? : PyVal → Option Int
  | .n a => some (a : Int)
  | .i a => some a
  | .b a => some (cond a 1 0)
  | _ => Option.none

/-- Python equality between two parsed scalar values. -/
def pyEq (a b : PyVal) : Bool :=
  match pyNum? a, pyNum? b with
  | some x, some y => x == y
  | _, _ =>
    match a, b with
    | .none, .none => true
    | .s x, .s y => x == y
    | _, _ => false

/-- Python comparison of a parsed value with the string literal t. -/
def pyEqStr (v : PyVal) (t : String) : Bool :=
  match v with
  | .s u => u == t
  | _ => false

/-- Python math.ceil(math.log2 x) for a natural x; math.log2 raises
ValueError on zero. -/
def ceilLog2 (x : Nat) : Except PyErr Nat :=
  if x = 0 then .error .valueError else .ok (Nat.clog 2 x)

/-- Group a bit sequence back into bytes (bitstring read of a bytes
field; the source only does this on whole-byte payloads). -/
def bitsToBytes (l : List Bool) : List Nat :=
  if l = [] then [] else binVal (l.take 8) :: bitsToBytes (l.drop 8)
termination_by l.length
decreasing_by
  rename_i h
  have : l.length ≠ 0 := fun hn => h (List.eq_nil_of_length_eq_zero hn)
  simp [List.length_drop]
  omega

namespace H264

/-- Embedding of h264_parser.parse_nal_unit (lines 288-308): strip the
start code when present, decode the one-byte NAL header, and strip
emulation prevention bytes from the remainder. -/
def parseNalUnit (nalUnit : List Nat) (hasStartCode : Bool) : Except PyErr Dict := do
  let nalData :=
    if hasStartCode then
      if nalUnit.take 3 = [0, 0, 1] then nalUnit.drop 3 else nalUnit.drop 4
    else
      nalUnit
  let nalHeader ← match nalData.head? with
    | some h => pure h
    | Option.none => throw .indexError
  let nalType := nalHeader % 32
  let forbiddenZeroBit := nalHeader / 128 % 2
  let nalRefIdc := nalHeader / 32 % 4
  let raw := removeEmulationPreventionBytes (nalData.drop 1)
  pure [("forbidden_zero_bit", .n forbiddenZeroBit),
        ("nal_ref_idc", .n nalRefIdc),
        ("nal_type", .n nalType),
        ("data", .bytes nalUnit),
        ("raw_data", .bytes raw)]

/-- Embedding of h264_parser.parse_hrd_parameters (lines 496-513). -/
def parseHrdParameters : PM Dict := do
  let mut hrd : Dict := []
  let cpbCnt ← H264.readUeSafe
  hrd := dictSet hrd "cpb_cnt_minus1" (optNat cpbCnt)
  hrd := dictSet hrd "bit_rate_scale" (optNat (← H264.readUintSafe 4))
  hrd := dictSet hrd "cpb_size_scale" (optNat (← H264.readUintSafe 4))
  hrd := dictSet hrd "bit_rate_value_minus1" (.list [])
  hrd := dictSet hrd "cpb_size_value_minus1" (.list [])
  hrd := dictSet hrd "cbr_flag" (.list [])
  let count ← pyToNat (optNat cpbCnt)
  for _ in List.range (count + 1) do
    hrd ← dictAppend hrd "bit_rate_value_minus1" (optNat (← H264.readUeSafe))
    hrd ← dictAppend hrd "cpb_size_value_minus1" (optNat (← H264.readUeSafe))
    hrd ← dictAppend hrd "cbr_flag" (optBool (← H264.readBoolSafe))
  hrd := dictSet hrd "initial_cpb_removal_delay_length_minus1" (optNat (← H264.readUintSafe 5))
  hrd := dictSet hrd "cpb_removal_delay_length_minus1" (optNat (← H264.readUintSafe 5))
  hrd := dictSet hrd "dpb_output_delay_length_minus1" (optNat (← H264.readUintSafe 5))
  hrd := dictSet hrd "time_offset_length" (optNat (← H264.readUintSafe 5))
  pure hrd

/-- Embedding of h264_parser.parse_vui_parameters (lines 437-493). -/
def parseVuiParameters : PM Dict := do
  let mut vui : Dict := []
  let aspectFlag ← H264.readBoolSafe
  vui := dictSet vui "aspect_ratio_info_present_flag" (optBool aspectFlag)
  if optTruthy aspectFlag then
    let idc ← H264.readUintSafe 8
    vui := dictSet vui "aspect_ratio_idc" (optNat idc)
    if idc = some 255 then
      vui := dictSet vui "sar_width" (optNat (← H264.readUintSafe 16))
      vui := dictSet vui "sar_height" (optNat (← H264.readUintSafe 16))
  let overscanFlag ← H264.readBoolSafe
  vui := dictSet vui "overscan_info_present_flag" (optBool overscanFlag)
  if optTruthy overscanFlag then
    vui := dictSet vui "overscan_appropriate_flag" (optBool (← H264.readBoolSafe))
  let videoSignalFlag ← H264.readBoolSafe
  vui := dictSet vui "video_signal_type_present_flag" (optBool videoSignalFlag)
  if optTruthy videoSignalFlag then
    vui := dictSet vui "video_format" (optNat (← H264.readUintSafe 3))
    vui := dictSet vui "video_full_range_flag" (optBool (← H264.readBoolSafe))
    let colourDesc ← H264.readBoolSafe
    vui := dictSet vui "colour_description_present_flag" (optBool colourDesc)
    if optTruthy colourDesc then
      vui := dictSet vui "colour_primaries" (optNat (← H264.readUintSafe 8))
      vui := dictSet vui "transfer_characteristics" (optNat (← H264.readUintSafe 8))
      vui := dictSet vui "matrix_coefficients" (optNat (← H264.readUintSafe 8))
  let chromaLocFlag ← H264.readBoolSafe
  vui := dictSet vui "chroma_loc_info_present_flag" (optBool chromaLocFlag)
  if optTruthy chromaLocFlag then
    vui := dictSet vui "chroma_sample_loc_type_top_field" (optNat (← H264.readUeSafe))
    vui := dictSet vui "chroma_sample_loc_type_bottom_field" (optNat (← H264.readUeSafe))
  let timingFlag ← H264.readBoolSafe
  vui := dictSet vui "timing_info_present_flag" (optBool timingFlag)
  if optTruthy timingFlag then
    vui := dictSet vui "num_units_in_tick" (optNat (← H264.readUintSafe 32))
    vui := dictSet vui "time_scale" (optNat (← H264.readUintSafe 32))
    vui := dictSet vui "fixed_frame_rate_flag" (optBool (← H264.readBoolSafe))
  let nalHrdFlag ← H264.readBoolSafe
  vui := dictSet vui "nal_hrd_parameters_present_flag" (optBool nalHrdFlag)
  if optTruthy nalHrdFlag then
    vui := dictSet vui "nal_hrd_parameters" (.dict (← parseHrdParameters))
  let vclHrdFlag ← H264.readBoolSafe
  vui := dictSet vui "vcl_hrd_parameters_present_flag" (optBool vclHrdFlag)
  if optTruthy vclHrdFlag then
    vui := dictSet vui "vcl_hrd_parameters" (.dict (← parseHrdParameters))
  if optTruthy nalHrdFlag || optTruthy vclHrdFlag then
    vui := dictSet vui "low_delay_hrd_flag" (optBool (← H264.readBoolSafe))
  vui := dictSet vui "pic_struct_present_flag" (optBool (← H264.readBoolSafe))
  let restrictionFlag ← H264.readBoolSafe
  vui := dictSet vui "bitstream_restriction_flag" (optBool restrictionFlag)
  if optTruthy restrictionFlag then
    vui := dictSet vui "motion_vectors_over_pic_boundaries_flag" (optBool (← H264.readBoolSafe))
    vui := dictSet vui "max_bytes_per_pic_denom" (optNat (← H264.readUeSafe))
    vui := dictSet vui "max_bits_per_mb_denom" (optNat (← H264.readUeSafe))
    vui := dictSet vui "log2_max_mv_length_horizontal" (optNat (← H264.readUeSafe))
    vui := dictSet vui "log2_max_mv_length_vertical" (optNat (← H264.readUeSafe))
    vui := dictSet vui "num_reorder_frames" (optNat (← H264.readUeSafe))
    vui := dictSet vui "max_dec_frame_buffering" (optNat (← H264.readUeSafe))
  pure vui

/-- Embedding of the seq_scaling_list consumption loop inside
h264_parser.parse_sps (lines 349-360): the decoded scales are dropped,
only the cursor advances; arithmetic on a failed (None) read raises
TypeError exactly as in Python. -/
def spsScalingListScan (sizeOfScalingList : Nat) : PM Unit := do
  let mut lastScale : Int := 8
  let mut nextScale : Int := 8
  for _ in List.range sizeOfScalingList do
    if nextScale ≠ 0 then
      let d ← H264.readSeSafe
      match d with
      | some dv => nextScale := pyMod (lastScale + dv + 256) 256
      | Option.none => throw .typeError
    lastScale := if nextScale ≠ 0 then nextScale else lastScale

/-- Profile list guarding the chroma-format branch in parse_sps. -/
def highProfileIdcs : List Nat := [100, 110, 122, 244, 44, 83, 86, 118, 128, 134, 135, 138, 139, 144]

/-- Embedding of h264_parser.parse_sps (lines 327-434).  Local variables
that Python binds only inside a branch are modelled with mutable cells
read exactly under the conditions the source checks (in locals()). -/
def parseSps (data : List Nat) : Except PyErr Dict := StateT.run' (s := ⟨bytesToBits data, 0⟩) do
  let profileIdc ← H264.readUintSafe 8
  let c0 ← H264.readBoolSafe
  let c1 ← H264.readBoolSafe
  let c2 ← H264.readBoolSafe
  let c3 ← H264.readBoolSafe
  let c4 ← H264.readBoolSafe
  let c5 ← H264.readBoolSafe
  let reserved ← H264.readUintSafe 2
  let levelIdc ← H264.readUintSafe 8
  let spsId ← H264.readUeSafe
  let isHigh : Bool := match profileIdc with
    | some p => highProfileIdcs.contains p
    | Option.none => false
  let mut chromaFormatIdc : Option Nat := Option.none
  let mut separateColourPlaneFlag : Option Bool := Option.none
  let mut bitDepthLuma : Option Nat := Option.none
  let mut bitDepthChroma : Option Nat := Option.none
  let mut qpprime : Option Bool := Option.none
  let mut seqScalingMatrixPresentFlag : Option Bool := Option.none
  if isHigh then
    chromaFormatIdc ← H264.readUeSafe
    if chromaFormatIdc = some 3 then
      separateColourPlaneFlag ← H264.readBoolSafe
    bitDepthLuma ← H264.readUeSafe
    bitDepthChroma ← H264.readUeSafe
    qpprime ← H264.readBoolSafe
    seqScalingMatrixPresentFlag ← H264.readBoolSafe
    if optTruthy seqScalingMatrixPresentFlag then
      for i in List.range (if chromaFormatIdc ≠ some 3 then 8 else 12) do
        let listPresent ← H264.readBoolSafe
        if optTruthy listPresent then
          spsScalingListScan (if i < 6 then 16 else 64)
  let log2MaxFrameNum ← H264.readUeSafe
  let picOrderCntType ← H264.readUeSafe
  let mut log2MaxPocLsb : Option Nat := Option.none
  let mut deltaPicOrderAlwaysZeroFlag : Option Bool := Option.none
  let mut offsetForNonRefPic : Option Int := Option.none
  let mut offsetForTopToBottomField : Option Int := Option.none
  let mut numRefFramesInPocCycle : Option Nat := Option.none
  let mut offsetForRefFrame : List PyVal := []
  if picOrderCntType = some 0 then
    log2MaxPocLsb ← H264.readUeSafe
  else if picOrderCntType = some 1 then
    deltaPicOrderAlwaysZeroFlag ← H264.readBoolSafe
    offsetForNonRefPic ← H264.readSeSafe
    offsetForTopToBottomField ← H264.readSeSafe
    numRefFramesInPocCycle ← H264.readUeSafe
    let cycle ← pyToNat (optNat numRefFramesInPocCycle)
    for _ in List.range cycle do
      offsetForRefFrame := offsetForRefFrame ++ [optInt (← H264.readSeSafe)]
  let numRefFrames ← H264.readUeSafe
  let gaps ← H264.readBoolSafe
  let picWidthInMbs ← H264.readUeSafe
  let picHeightInMapUnits ← H264.readUeSafe
  let frameMbsOnlyFlag ← H264.readBoolSafe
  let mut mbAdaptiveFrameFieldFlag : Option Bool := Option.none
  if !optTruthy frameMbsOnlyFlag then
    mbAdaptiveFrameFieldFlag ← H264.readBoolSafe
  let direct8x8 ← H264.readBoolSafe
  let frameCroppingFlag ← H264.readBoolSafe
  let mut cropLeft : Option Nat := Option.none
  let mut cropRight : Option Nat := Option.none
  let mut cropTop : Option Nat := Option.none
  let mut cropBottom : Option Nat := Option.none
  if optTruthy frameCroppingFlag then
    cropLeft ← H264.readUeSafe
    cropRight ← H264.readUeSafe
    cropTop ← H264.readUeSafe
    cropBottom ← H264.readUeSafe
  let vuiFlag ← H264.readBoolSafe
  let mut vuiParameters : Option Dict := Option.none
  if optTruthy vuiFlag then
    vuiParameters ← some <$> parseVuiParameters
  pure [("profile_idc", optNat profileIdc),
        ("constraint_set0_flag", optBool c0),
        ("constraint_set1_flag", optBool c1),
        ("constraint_set2_flag", optBool c2),
        ("constraint_set3_flag", optBool c3),
        ("constraint_set4_flag", optBool c4),
        ("constraint_set5_flag", optBool c5),
        ("reserved_zero_2bits", optNat reserved),
        ("level_idc", optNat levelIdc),
        ("seq_parameter_set_id", optNat spsId),
        ("chroma_format_idc", if isHigh then optNat chromaFormatIdc else .none),
        ("separate_colour_plane_flag",
          if isHigh ∧ chromaFormatIdc = some 3 then optBool separateColourPlaneFlag else .none),
        ("bit_depth_luma_minus8", if isHigh then optNat bitDepthLuma else .none),
        ("bit_depth_chroma_minus8", if isHigh then optNat bitDepthChroma else .none),
        ("qpprime_y_zero_transform_bypass_flag", if isHigh then optBool qpprime else .none),
        ("seq_scaling_matrix_present_flag",
          if isHigh then optBool seqScalingMatrixPresentFlag else .none),
        ("log2_max_frame_num_minus4", optNat log2MaxFrameNum),
        ("pic_order_cnt_type", optNat picOrderCntType),
        ("log2_max_pic_order_cnt_lsb_minus4",
          if picOrderCntType = some 0 then optNat log2MaxPocLsb else .none),
        ("delta_pic_order_always_zero_flag",
          if picOrderCntType = some 1 then optBool deltaPicOrderAlwaysZeroFlag else .none),
        ("offset_for_non_ref_pic",
          if picOrderCntType = some 1 then optInt offsetForNonRefPic else .none),
        ("offset_for_top_to_bottom_field",
          if picOrderCntType = some 1 then optInt offsetForTopToBottomField else .none),
        ("num_ref_frames_in_pic_order_cnt_cycle",
          if picOrderCntType = some 1 then optNat numRefFramesInPocCycle else .none),
        ("offset_for_ref_frame",
          if picOrderCntType = some 1 then .list offsetForRefFrame else .none),
        ("num_ref_frames", optNat numRefFrames),
        ("gaps_in_frame_num_value_allowed_flag", optBool gaps),
        ("pic_width_in_mbs_minus1", optNat picWidthInMbs),
        ("pic_height_in_map_units_minus1", optNat picHeightInMapUnits),
        ("frame_mbs_only_flag", optBool frameMbsOnlyFlag),
        ("mb_adaptive_frame_field_flag",
          if !optTruthy frameMbsOnlyFlag then optBool mbAdaptiveFrameFieldFlag else .none),
        ("direct_8x8_inference_flag", optBool direct8x8),
        ("frame_cropping_flag", optBool frameCroppingFlag),
        ("frame_crop_left_offset", if optTruthy frameCroppingFlag then optNat cropLeft else .none),
        ("frame_crop_right_offset", if optTruthy frameCroppingFlag then optNat cropRight else .none),
        ("frame_crop_top_offset", if optTruthy frameCroppingFlag then optNat cropTop else .none),
        ("frame_crop_bottom_offset", if optTruthy frameCroppingFlag then optNat cropBottom else .none),
        ("vui_parameters_present_flag", optBool vuiFlag),
        ("vui_parameters", match vuiParameters with
          | some d => .dict d
          | Option.none => .none),
        ("data", .bytes data)]

/-- Embedding of the variable-length (ff-escaped) type and size reader
inside h264_parser.parse_sei (lines 679-697); returns none for the early
return path taken when fewer than 8 bits remain. -/
def seiVarLen (fuel : Nat) (acc : Nat) : PM (Option Nat) := do
  match fuel with
  | 0 => throw .fuel
  | fuel + 1 =>
    let bs ← get
    if bs.pos + 8 > bs.len then
      pure Option.none
    else
      let byte ← H264.readUintSafe 8
      match byte with
      | some v =>
        if v ≠ 255 then pure (some (acc + v)) else seiVarLen fuel (acc + v)
      | Option.none => throw .typeError

/-- Embedding of the message loop of h264_parser.parse_sei (lines
675-708): when the declared payload size does not fit in the remaining
buffer the source raises ValueError (line 702). -/
def parseSeiLoop (fuel : Nat) (msgs : List Dict) : PM (List Dict) := do
  match fuel with
  | 0 => throw .fuel
  | fuel + 1 =>
    let bs ← get
    if bs.pos < bs.len then
      let t ← seiVarLen (bs.len + 1) 0
      match t with
      | Option.none => pure msgs
      | some payloadType =>
        let sz ← seiVarLen (bs.len + 1) 0
        match sz with
        | Option.none => pure msgs
        | some payloadSize =>
          let bs₂ ← get
          if bs₂.pos + payloadSize * 8 > bs₂.len then
            throw .valueError
          else
            let payload := (bs₂.data.drop bs₂.pos).take (payloadSize * 8)
            set (⟨bs₂.data, bs₂.pos + payloadSize * 8⟩ : BitSt)
            parseSeiLoop fuel
              (msgs ++ [[("payload_type", .n payloadType),
                         ("payload_size", .n payloadSize),
                         ("payload_data", .bytes (bitsToBytes payload))]])
    else
      pure msgs

/-- Embedding of h264_parser.parse_sei (lines 671-708). -/
def parseSei (data : List Nat) : Except PyErr (List Dict) :=
  StateT.run' (parseSeiLoop (data.length + 1) []) ⟨bytesToBits data, 0⟩

/-- Whether a key is present in a dict (Python k in d). -/
def dictHasKey (d : Dict) (k : String) : Bool := (dictGet? d k).isSome

/-- Embedding of the modification_of_pic_nums_idc loop of
h264_parser.parse_ref_pic_list_modification (lines 1540-1551).  When the
buffer is exhausted the Python loop never terminates (read_ue_safe keeps
returning None, which is never equal to 3); running out of fuel models
that divergence. -/
def refPicListModLoop (fuel : Nat) (acc : List PyVal) : PM (List PyVal) := do
  match fuel with
  | 0 => throw .fuel
  | fuel + 1 =>
    let idc ← readUeSafe
    if idc = some 3 then
      pure acc
    else
      let mut item : Dict := [("modification_of_pic_nums_idc", optNat idc)]
      if idc = some 0 ∨ idc = some 1 then
        item := dictSet item "abs_diff_pic_num_minus1" (optNat (← readUeSafe))
      else if idc = some 2 then
        item := dictSet item "long_term_pic_num" (optNat (← readUeSafe))
      refPicListModLoop fuel (acc ++ [.dict item])

/-- Embedding of h264_parser.parse_ref_pic_list_modification (lines
1530-1574). -/
def parseRefPicListModification (sliceType : Option Nat) : PM Dict := do
  let stMod ← match sliceType with
    | some t => pure (t % 5)
    | Option.none => throw .typeError
  let mut result : Dict := []
  if ¬(stMod = 2 ∨ stMod = 4) then
    let flagL0 ← readBoolSafe
    result := dictSet result "ref_pic_list_modification_flag_l0" (optBool flagL0)
    if optTruthy flagL0 then
      let bs ← get
      let mods ← refPicListModLoop (bs.len - bs.pos + 1) []
      result := dictSet result "modifications_l0" (.list mods)
  if stMod = 1 then
    let flagL1 ← readBoolSafe
    result := dictSet result "ref_pic_list_modification_flag_l1" (optBool flagL1)
    if optTruthy flagL1 then
      let bs ← get
      let mods ← refPicListModLoop (bs.len - bs.pos + 1) []
      result := dictSet result "modifications_l1" (.list mods)
  pure result

/-- Embedding of the item loop of
h264_parser.parse_ref_pic_list_mvc_modification (lines 1489-1502), which
additionally recognizes idc values 4 and 5. -/
def refPicListMvcModLoop (fuel : Nat) (acc : List PyVal) : PM (List PyVal) := do
  match fuel with
  | 0 => throw .fuel
  | fuel + 1 =>
    let idc ← readUeSafe
    if idc = some 3 then
      pure acc
    else
      let mut item : Dict := [("modification_of_pic_nums_idc", optNat idc)]
      if idc = some 0 ∨ idc = some 1 then
        item := dictSet item "abs_diff_pic_num_minus1" (optNat (← readUeSafe))
      else if idc = some 2 then
        item := dictSet item "long_term_pic_num" (optNat (← readUeSafe))
      else if idc = some 4 ∨ idc = some 5 then
        item := dictSet item "abs_diff_view_idx_minus1" (optNat (← readUeSafe))
      refPicListMvcModLoop fuel (acc ++ [.dict item])

/-- Embedding of h264_parser.parse_ref_pic_list_mvc_modification (lines
1479-1527). -/
def parseRefPicListMvcModification (sliceType : Option Nat) : PM Dict := do
  let stMod ← match sliceType with
    | some t => pure (t % 5)
    | Option.none => throw .typeError
  let mut result : Dict := []
  if ¬(stMod = 2 ∨ stMod = 4) then
    let flagL0 ← readBoolSafe
    result := dictSet result "ref_pic_list_modification_flag_l0" (optBool flagL0)
    if optTruthy flagL0 then
      let bs ← get
      let mods ← refPicListMvcModLoop (bs.len - bs.pos + 1) []
      result := dictSet result "modifications_l0" (.list mods)
  if stMod = 1 then
    let flagL1 ← readBoolSafe
    result := dictSet result "ref_pic_list_modification_flag_l1" (optBool flagL1)
    if optTruthy flagL1 then
      let bs ← get
      let mods ← refPicListMvcModLoop (bs.len - bs.pos + 1) []
      result := dictSet result "modifications_l1" (.list mods)
  pure result

/-- Embedding of h264_parser.parse_pred_weight_table (lines 1577-1676). -/
def parsePredWeightTable (sliceHeader sps pps : Dict) : PM Dict := do
  let mut result : Dict := []
  let chromaArrayType := dictGetD sps "ChromaArrayType" (.n 1)
  let nL0 := dictGetD sliceHeader "num_ref_idx_l0_active_minus1" (.n 0)
  let nL1 := dictGetD sliceHeader "num_ref_idx_l1_active_minus1" (.n 0)
  result := dictSet result "luma_log2_weight_denom" (optNat (← readUeSafe))
  if !pyEqNat chromaArrayType 0 then
    result := dictSet result "chroma_log2_weight_denom" (optNat (← readUeSafe))
  result := dictSet result "luma_weight_l0_flag" (.list [])
  result := dictSet result "luma_weight_l0" (.list [])
  result := dictSet result "luma_offset_l0" (.list [])
  if !pyEqNat chromaArrayType 0 then
    result := dictSet result "chroma_weight_l0_flag" (.list [])
    result := dictSet result "chroma_weight_l0" (.list [])
    result := dictSet result "chroma_offset_l0" (.list [])
  let n0 ← pyToNat nL0
  for _ in List.range (n0 + 1) do
    let lwFlag ← readBoolSafe
    result ← dictAppend result "luma_weight_l0_flag" (optBool lwFlag)
    let mut lumaWeight : PyVal := .n 0
    let mut lumaOffset : PyVal := .n 0
    if optTruthy lwFlag then
      lumaWeight := optInt (← readSeSafe)
      lumaOffset := optInt (← readSeSafe)
    result ← dictAppend result "luma_weight_l0" lumaWeight
    result ← dictAppend result "luma_offset_l0" lumaOffset
    if !pyEqNat chromaArrayType 0 then
      let cwFlag ← readBoolSafe
      result ← dictAppend result "chroma_weight_l0_flag" (optBool cwFlag)
      let mut cwList : List PyVal := []
      let mut coList : List PyVal := []
      if optTruthy cwFlag then
        for _ in List.range 2 do
          let cwVal ← readSeSafe
          let coVal ← readSeSafe
          cwList := cwList ++ [optInt cwVal]
          coList := coList ++ [optInt coVal]
      else
        cwList := [.n 0, .n 0]
        coList := [.n 0, .n 0]
      if !dictHasKey result "chroma_weight_l0" then
        result := dictSet result "chroma_weight_l0" (.list [])
        result := dictSet result "chroma_offset_l0" (.list [])
      result ← dictAppend result "chroma_weight_l0" (.list cwList)
      result ← dictAppend result "chroma_offset_l0" (.list coList)
  let st ← pyToNat (← dictIndex sliceHeader "slice_type")
  if st % 5 = 1 then
    result := dictSet result "luma_weight_l1_flag" (.list [])
    result := dictSet result "luma_weight_l1" (.list [])
    result := dictSet result "luma_offset_l1" (.list [])
    if !pyEqNat chromaArrayType 0 then
      result := dictSet result "chroma_weight_l1_flag" (.list [])
      result := dictSet result "chroma_weight_l1" (.list [])
      result := dictSet result "chroma_offset_l1" (.list [])
    let n1 ← pyToNat nL1
    for _ in List.range (n1 + 1) do
      let lwFlag ← readBoolSafe
      result ← dictAppend result "luma_weight_l1_flag" (optBool lwFlag)
      let mut lumaWeight : PyVal := .n 0
      let mut lumaOffset : PyVal := .n 0
      if optTruthy lwFlag then
        lumaWeight := optInt (← readSeSafe)
        lumaOffset := optInt (← readSeSafe)
      result ← dictAppend result "luma_weight_l1" lumaWeight
      result ← dictAppend result "luma_offset_l1" lumaOffset
      if !pyEqNat chromaArrayType 0 then
        let cwFlag ← readBoolSafe
        result ← dictAppend result "chroma_weight_l1_flag" (optBool cwFlag)
        let mut cwList : List PyVal := []
        let mut coList : List PyVal := []
        if optTruthy cwFlag then
          for _ in List.range 2 do
            let cwVal ← readSeSafe
            let coVal ← readSeSafe
            cwList := cwList ++ [optInt cwVal]
            coList := coList ++ [optInt coVal]
        else
          cwList := [.n 0, .n 0]
          coList := [.n 0, .n 0]
        if !dictHasKey result "chroma_weight_l1" then
          result := dictSet result "chroma_weight_l1" (.list [])
          result := dictSet result "chroma_offset_l1" (.list [])
        result ← dictAppend result "chroma_weight_l1" (.list cwList)
        result ← dictAppend result "chroma_offset_l1" (.list coList)
  pure result

/-- Embedding of the memory-management-control-operation loop of
h264_parser.parse_dec_ref_pic_marking (lines 1689-1704); as with the
ref-pic-list loop, fuel exhaustion models the divergence of the Python
loop on a drained buffer. -/
def decRefPicMarkingLoop (fuel : Nat) (acc : List PyVal) : PM (List PyVal) := do
  match fuel with
  | 0 => throw .fuel
  | fuel + 1 =>
    let mmco ← readUeSafe
    if mmco = some 0 then
      pure acc
    else
      let mut op : Dict := [("memory_management_control_operation", optNat mmco)]
      if mmco = some 1 ∨ mmco = some 3 then
        op := dictSet op "difference_of_pic_nums_minus1" (optNat (← readUeSafe))
      if mmco = some 2 then
        op := dictSet op "long_term_pic_num" (optNat (← readUeSafe))
      if mmco = some 3 ∨ mmco = some 6 then
        op := dictSet op "long_term_frame_idx" (optNat (← readUeSafe))
      if mmco = some 4 then
        op := dictSet op "max_long_term_frame_idx_plus1" (optNat (← readUeSafe))
      decRefPicMarkingLoop fuel (acc ++ [.dict op])

/-- Embedding of h264_parser.parse_dec_ref_pic_marking (lines 1678-1706). -/
def parseDecRefPicMarking (idrPicFlag : Bool) : PM Dict := do
  let mut result : Dict := []
  if idrPicFlag then
    result := dictSet result "no_output_of_prior_pics_flag" (optBool (← readBoolSafe))
    result := dictSet result "long_term_reference_flag" (optBool (← readBoolSafe))
  else
    result := dictSet result "adaptive_ref_pic_marking_mode_flag" (optBool (← readBoolSafe))
    if pyTruthy (← dictIndex result "adaptive_ref_pic_marking_mode_flag") then
      let bs ← get
      let operations ← decRefPicMarkingLoop (bs.len - bs.pos + 1) []
      result := dictSet result "operations" (.list operations)
  pure result

/-- Embedding of the frame_num read of h264_parser.parse_slice_header
(lines 1385-1386): the bit width is sps[log2_max_frame_num_minus4] + 4. -/
def readFrameNum (sps : Dict) : PM (Option Nat) := do
  let w ← pyToNat (← dictIndex sps "log2_max_frame_num_minus4")
  readUintSafe (w + 4)

/-- Embedding of the pic_order_cnt_lsb read of
h264_parser.parse_slice_header (lines 1400-1401): the bit width is
sps[log2_max_pic_order_cnt_lsb_minus4] + 4. -/
def readPicOrderCntLsb (sps : Dict) : PM (Option Nat) := do
  let w ← pyToNat (← dictIndex sps "log2_max_pic_order_cnt_lsb_minus4")
  readUintSafe (w + 4)

/-- Embedding of h264_parser.parse_slice_header (lines 1371-1476). -/
def parseSliceHeader (sps pps : Dict) (nalUnitType nalRefIdc : Nat) : PM Dict := do
  let mut hdr : Dict := []
  hdr := dictSet hdr "first_mb_in_slice" (optNat (← readUeSafe))
  let rawSliceType ← readUeSafe
  hdr := dictSet hdr "slice_type" (optNat rawSliceType)
  let stMod ← match rawSliceType with
    | some t => pure (t % 5)
    | Option.none => throw .typeError
  hdr := dictSet hdr "pic_parameter_set_id" (optNat (← readUeSafe))
  if pyTruthy (dictGetD sps "separate_colour_plane_flag" (.b false)) then
    hdr := dictSet hdr "colour_plane_id" (optNat (← readUintSafe 2))
  hdr := dictSet hdr "frame_num" (optNat (← readFrameNum sps))
  if !pyTruthy (← dictIndex sps "frame_mbs_only_flag") then
    hdr := dictSet hdr "field_pic_flag" (optBool (← readBoolSafe))
    if pyTruthy (← dictIndex hdr "field_pic_flag") then
      hdr := dictSet hdr "bottom_field_flag" (optBool (← readBoolSafe))
  else
    hdr := dictSet hdr "field_pic_flag" (.b false)
  let idrPicFlag := nalUnitType = 5
  if idrPicFlag then
    hdr := dictSet hdr "idr_pic_id" (optNat (← readUeSafe))
  let pocType ← dictIndex sps "pic_order_cnt_type"
  if pyEqNat pocType 0 then
    hdr := dictSet hdr "pic_order_cnt_lsb" (optNat (← readPicOrderCntLsb sps))
    if pyTruthy (dictGetD pps "bottom_field_pic_order_in_frame_present_flag" (.b false))
        && !pyTruthy (← dictIndex hdr "field_pic_flag") then
      hdr := dictSet hdr "delta_pic_order_cnt_bottom" (optInt (← readSeSafe))
  else if pyEqNat pocType 1
      && !pyTruthy (dictGetD sps "delta_pic_order_always_zero_flag" (.b false)) then
    hdr := dictSet hdr "delta_pic_order_cnt" (.list [])
    hdr ← dictAppend hdr "delta_pic_order_cnt" (optInt (← readSeSafe))
    if pyTruthy (dictGetD pps "bottom_field_pic_order_in_frame_present_flag" (.b false))
        && !pyTruthy (← dictIndex hdr "field_pic_flag") then
      hdr ← dictAppend hdr "delta_pic_order_cnt" (optInt (← readSeSafe))
  if pyTruthy (dictGetD pps "redundant_pic_cnt_present_flag" (.b false)) then
    hdr := dictSet hdr "redundant_pic_cnt" (optNat (← readUeSafe))
  if stMod = 1 then
    hdr := dictSet hdr "direct_spatial_mv_pred_flag" (optBool (← readBoolSafe))
  if stMod = 0 ∨ stMod = 1 ∨ stMod = 3 then
    hdr := dictSet hdr "num_ref_idx_active_override_flag" (optBool (← readBoolSafe))
    if pyTruthy (← dictIndex hdr "num_ref_idx_active_override_flag") then
      hdr := dictSet hdr "num_ref_idx_l0_active_minus1" (optNat (← readUeSafe))
      if stMod = 1 then
        hdr := dictSet hdr "num_ref_idx_l1_active_minus1" (optNat (← readUeSafe))
    else
      hdr := dictSet hdr "num_ref_idx_l0_active_minus1"
        (← dictIndex pps "num_ref_idx_l0_default_active_minus1")
      match dictGet? pps "num_ref_idx_l1_default_active_minus1" with
      | some v => hdr := dictSet hdr "num_ref_idx_l1_active_minus1" v
      | Option.none => hdr := dictSet hdr "num_ref_idx_l1_active_minus1" (.n 0)
  if nalUnitType = 20 ∨ nalUnitType = 21 then
    hdr := dictSet hdr "mvc_modification" (.dict (← parseRefPicListMvcModification rawSliceType))
  else
    hdr := dictSet hdr "ref_pic_list_modification" (.dict (← parseRefPicListModification rawSliceType))
  let weightedPredFlag := dictGetD pps "weighted_pred_flag" (.b false)
  let weightedBipredIdc := dictGetD pps "weighted_bipred_idc" (.n 0)
  if (pyTruthy weightedPredFlag ∧ (stMod = 0 ∨ stMod = 3))
      ∨ (pyEqNat weightedBipredIdc 1 ∧ stMod = 1) then
    hdr := dictSet hdr "pred_weight_table" (.dict (← parsePredWeightTable hdr sps pps))
  if nalRefIdc ≠ 0 then
    hdr := dictSet hdr "dec_ref_pic_marking" (.dict (← parseDecRefPicMarking idrPicFlag))
  if pyTruthy (dictGetD pps "entropy_coding_mode_flag" (.b false)) ∧ ¬(stMod = 2 ∨ stMod = 4) then
    hdr := dictSet hdr "cabac_init_idc" (optNat (← readUeSafe))
  hdr := dictSet hdr "slice_qp_delta" (optInt (← readSeSafe))
  if stMod = 3 ∨ stMod = 4 then
    if stMod = 3 then
      hdr := dictSet hdr "sp_for_switch_flag" (optBool (← readBoolSafe))
    hdr := dictSet hdr "slice_qs_delta" (optInt (← readSeSafe))
  if pyTruthy (dictGetD pps "deblocking_filter_control_present_flag" (.b false)) then
    hdr := dictSet hdr "disable_deblocking_filter_idc" (optNat (← readUeSafe))
    if !pyEqNat (← dictIndex hdr "disable_deblocking_filter_idc") 1 then
      hdr := dictSet hdr "slice_alpha_c0_offset_div2" (optInt (← readSeSafe))
      hdr := dictSet hdr "slice_beta_offset_div2" (optInt (← readSeSafe))
  let nsg ← pyToInt (← dictIndex pps "num_slice_groups_minus1")
  if nsg > 0 then
    let sgmt ← pyToInt (← dictIndex pps "slice_group_map_type")
    if 3 ≤ sgmt ∧ sgmt ≤ 5 then
      let ps ← pyToNat (← dictIndex pps "pic_size_in_map_units_minus1")
      hdr := dictSet hdr "slice_group_change_cycle" (optNat (← readUintSafe (ps + 4)))
  pure hdr

end H264

namespace Hevc

/-- Embedding of hevc_parser.parse_short_term_ref_pic_set (lines
995-1034).  The arguments are the Python values the slice-header parser
passes in.  In the inter-prediction branch the source hard-codes
NumDeltaPocs = 0 (line 1012, with a comment saying it should be
calculated from the reference picture set), so the flag loop always runs
exactly once. -/
def parseShortTermRefPicSet (stRpsIdx numSets : PyVal) : PM Dict := do
  let mut d : Dict := []
  d := dictSet d "inter_ref_pic_set_prediction_flag" .none
  d := dictSet d "delta_idx_minus1" .none
  d := dictSet d "delta_rps_sign" .none
  d := dictSet d "abs_delta_rps_minus1" .none
  d := dictSet d "used_by_curr_pic_flag" (.list [])
  d := dictSet d "use_delta_flag" (.list [])
  if !pyEqNat stRpsIdx 0 then
    let interFlag ← readBoolSafe
    d := dictSet d "inter_ref_pic_set_prediction_flag" (optBool interFlag)
    if optTruthy interFlag then
      if pyEq stRpsIdx numSets then
        d := dictSet d "delta_idx_minus1" (optNat (← readUeSafe))
      d := dictSet d "delta_rps_sign" (optNat (← readUintSafe 1))
      d := dictSet d "abs_delta_rps_minus1" (optNat (← readUeSafe))
      let numDeltaPocs : Nat := 0
      for _ in List.range (numDeltaPocs + 1) do
        let flag ← readBoolSafe
        d ← dictAppend d "used_by_curr_pic_flag" (optBool flag)
        if !optTruthy flag then
          d ← dictAppend d "use_delta_flag" (optBool (← readBoolSafe))
  else
    d := dictSet d "num_negative_pics" (optNat (← readUeSafe))
    d := dictSet d "num_positive_pics" (optNat (← readUeSafe))
    d := dictSet d "delta_poc_s0_minus1" (.list [])
    d := dictSet d "used_by_curr_pic_s0_flag" (.list [])
    d := dictSet d "delta_poc_s1_minus1" (.list [])
    d := dictSet d "used_by_curr_pic_s1_flag" (.list [])
    let nneg ← pyToNat (← dictIndex d "num_negative_pics")
    for _ in List.range nneg do
      d ← dictAppend d "delta_poc_s0_minus1" (optNat (← readUeSafe))
      d ← dictAppend d "used_by_curr_pic_s0_flag" (optBool (← readBoolSafe))
    let npos ← pyToNat (← dictIndex d "num_positive_pics")
    for _ in List.range npos do
      d ← dictAppend d "delta_poc_s1_minus1" (optNat (← readUeSafe))
      d ← dictAppend d "used_by_curr_pic_s1_flag" (optBool (← readBoolSafe))
  pure d

/-- Embedding of hevc_parser.byte_alignment (lines 2540-2550): single
bits are read until the cursor is byte aligned; reading past the end of
the buffer raises ReadError inside the bitstring library, which the
source does not catch here.  Seven iterations always suffice. -/
def byteAlignment : PM Unit := do
  for _ in List.range 7 do
    let bs ← get
    if bs.pos % 8 ≠ 0 then
      if bs.pos < bs.len then
        set (⟨bs.data, bs.pos + 1⟩ : BitSt)
      else
        throw .readError

/-- Embedding of hevc_parser.parse_ref_pic_lists_modification (lines
2318-2334). -/
def parseRefPicListsModification (sliceHeader : Dict) : PM Dict := do
  let mut d : Dict := []
  let flagL0 ← readBoolSafe
  d := dictSet d "ref_pic_list_modification_flag_l0" (optBool flagL0)
  if pyTruthy (← dictIndex d "ref_pic_list_modification_flag_l0") then
    d := dictSet d "list_entry_l0" (.list [])
    let n0 ← pyToNat (← dictIndex sliceHeader "num_ref_idx_l0_active_minus1")
    for _ in List.range (n0 + 1) do
      d ← dictAppend d "list_entry_l0" (optNat (← readUeSafe))
  if pyEqStr (← dictIndex sliceHeader "slice_type") "B" then
    let flagL1 ← readBoolSafe
    d := dictSet d "ref_pic_list_modification_flag_l1" (optBool flagL1)
    if pyTruthy (← dictIndex d "ref_pic_list_modification_flag_l1") then
      d := dictSet d "list_entry_l1" (.list [])
      let n1 ← pyToNat (← dictIndex sliceHeader "num_ref_idx_l1_active_minus1")
      for _ in List.range (n1 + 1) do
        d ← dictAppend d "list_entry_l1" (optNat (← readUeSafe))
  pure d

/-- Embedding of hevc_parser.parse_pred_weight_table (lines 2336-2379);
the last two arguments are the values of
slice_header.get(num_ref_idx_l{0,1}_active_minus1) at the call site. -/
def parsePredWeightTable (sliceHeader sps : Dict) (nL0 nL1 : PyVal) : PM Dict := do
  let mut pwt : Dict := []
  let chromaArrayType ←
    if pyEqNat (dictGetD sps "separate_colour_plane_flag" (.n 0)) 0 then
      dictIndex sps "chroma_format_idc"
    else
      pure (PyVal.n 0)
  pwt := dictSet pwt "luma_log2_weight_denom" (optNat (← readUeSafe))
  if !pyEqNat chromaArrayType 0 then
    pwt := dictSet pwt "delta_chroma_log2_weight_denom" (optInt (← readSeSafe))
  pwt := dictSet pwt "luma_weight_l0" (.list [])
  pwt := dictSet pwt "luma_offset_l0" (.list [])
  pwt := dictSet pwt "chroma_weight_l0" (.list [])
  pwt := dictSet pwt "chroma_offset_l0" (.list [])
  if !nL0.isNone then
    let n0 ← pyToNat nL0
    for _ in List.range (n0 + 1) do
      let lwFlag ← readBoolSafe
      pwt := dictSet pwt "luma_weight_l0_flag" (optBool lwFlag)
      if pyTruthy (← dictIndex pwt "luma_weight_l0_flag") then
        pwt ← dictAppend pwt "luma_weight_l0" (optInt (← readSeSafe))
        pwt ← dictAppend pwt "luma_offset_l0" (optInt (← readSeSafe))
      if !pyEqNat chromaArrayType 0 then
        let cwFlag ← readBoolSafe
        pwt := dictSet pwt "chroma_weight_l0_flag" (optBool cwFlag)
        if pyTruthy (← dictIndex pwt "chroma_weight_l0_flag") then
          let mut w : List PyVal := []
          for _ in List.range (n0 + 1) do
            let mut inner : List PyVal := []
            for _ in List.range 2 do
              inner := inner ++ [optInt (← readSeSafe)]
            w := w ++ [.list inner]
          pwt := dictSet pwt "delta_chroma_weight_l0" (.list w)
          let mut o : List PyVal := []
          for _ in List.range (n0 + 1) do
            let mut inner : List PyVal := []
            for _ in List.range 2 do
              inner := inner ++ [optInt (← readSeSafe)]
            o := o ++ [.list inner]
          pwt := dictSet pwt "delta_chroma_offset_l0" (.list o)
  if !nL1.isNone then
    if pyEqStr (← dictIndex sliceHeader "slice_type") "B" then
      pwt := dictSet pwt "luma_weight_l1" (.list [])
      pwt := dictSet pwt "luma_offset_l1" (.list [])
      pwt := dictSet pwt "chroma_weight_l1" (.list [])
      pwt := dictSet pwt "chroma_offset_l1" (.list [])
      let n1 ← pyToNat nL1
      for _ in List.range (n1 + 1) do
        let lwFlag ← readBoolSafe
        pwt := dictSet pwt "luma_weight_l1_flag" (optBool lwFlag)
        if pyTruthy (← dictIndex pwt "luma_weight_l1_flag") then
          pwt ← dictAppend pwt "luma_weight_l1" (optInt (← readSeSafe))
          pwt ← dictAppend pwt "luma_offset_l1" (optInt (← readSeSafe))
        if !pyEqNat chromaArrayType 0 then
          let cwFlag ← readBoolSafe
          pwt := dictSet pwt "chroma_weight_l1_flag" (optBool cwFlag)
          if pyTruthy (← dictIndex pwt "chroma_weight_l1_flag") then
            let mut w : List PyVal := []
            for _ in List.range (n1 + 1) do
              let mut inner : List PyVal := []
              for _ in List.range 2 do
                inner := inner ++ [optInt (← readSeSafe)]
              w := w ++ [.list inner]
            pwt := dictSet pwt "delta_chroma_weight_l1" (.list w)
            let mut o : List PyVal := []
            for _ in List.range (n1 + 1) do
              let mut inner : List PyVal := []
              for _ in List.range 2 do
                inner := inner ++ [optInt (← readSeSafe)]
              o := o ++ [.list inner]
            pwt := dictSet pwt "delta_chroma_offset_l1" (.list o)
  pure pwt

/-- Positivity test for an is-not-None guarded Python comparison v > 0;
at the call sites the value is always an int from a previous Exp-Golomb
read or None, which the caller has excluded. -/
def pyIsNotNonePos (v : PyVal) : Bool :=
  match pyNum? v with
  | some x => x > 0
  | Option.none => false

/-- Embedding of the slice_pic_order_cnt_lsb read of
hevc_parser.parse_slice_segment_header (line 2176): the bit width is
sps[log2_max_pic_order_cnt_lsb_minus4] + 4. -/
def readSlicePicOrderCntLsb (sps : Dict) : PM (Option Nat) := do
  let w ← pyToNat (← dictIndex sps "log2_max_pic_order_cnt_lsb_minus4")
  readUintSafe (w + 4)

/-- Embedding of hevc_parser.parse_slice_segment_header (lines
2121-2316).  The source returns the bool False for an unsupported slice
type (line 2167), so the result is a Python value: either a dict or
False. -/
def parseSliceSegmentHeader (nalUnitType : Nat) (sps pps : Dict) : PM PyVal := do
  let mut hdr : Dict := []
  hdr := dictSet hdr "first_slice_segment_in_pic_flag" (optBool (← readBoolSafe))
  if 16 ≤ nalUnitType ∧ nalUnitType ≤ 23 then
    hdr := dictSet hdr "no_output_of_prior_pics_flag" (optBool (← readBoolSafe))
  hdr := dictSet hdr "slice_pic_parameter_set_id" (optNat (← readUeSafe))
  hdr := dictSet hdr "dependent_slice_segment_flag" (.b false)
  hdr := dictSet hdr "slice_segment_address"
    (if pyTruthy (← dictIndex hdr "first_slice_segment_in_pic_flag") then .n 0 else .none)
  if pyEqNat (dictGetD hdr "first_slice_segment_in_pic_flag" (.b false)) 0 then
    if pyTruthy (dictGetD pps "dependent_slice_segments_enabled_flag" (.b false)) then
      hdr := dictSet hdr "dependent_slice_segment_flag" (optBool (← readBoolSafe))
    let log2Min ← pyToNat (dictGetD sps "log2_min_luma_coding_block_size_minus3" (.n 0))
    let log2Diff ← pyToNat (dictGetD sps "log2_diff_max_min_luma_coding_block_size" (.n 0))
    let ctbLog2SizeY := log2Min + 3 + log2Diff
    let ctbSizeY := 2 ^ ctbLog2SizeY
    let picWidth ← pyToNat (dictGetD sps "pic_width_in_luma_samples" (.n 0))
    let picHeight ← pyToNat (dictGetD sps "pic_height_in_luma_samples" (.n 0))
    let picWidthInCtbsY := (picWidth + ctbSizeY - 1) / ctbSizeY
    let picHeightInCtbsY := (picHeight + ctbSizeY - 1) / ctbSizeY
    let picSizeInCtbsY := picWidthInCtbsY * picHeightInCtbsY
    if picSizeInCtbsY > 0 then
      let numBits := max 1 (← ceilLog2 picSizeInCtbsY)
      hdr := dictSet hdr "slice_segment_address" (optNat (← readUintSafe numBits))
    else
      hdr := dictSet hdr "slice_segment_address" (.n 0)
  if pyEqNat (dictGetD hdr "dependent_slice_segment_flag" .none) 0 then
    let nExtra ← pyToNat (dictGetD pps "num_extra_slice_header_bits" (.n 0))
    let mut reserved : List PyVal := []
    for _ in List.range nExtra do
      reserved := reserved ++ [optBool (← readBoolSafe)]
    hdr := dictSet hdr "slice_reserved_flag" (.list reserved)
    hdr := dictSet hdr "slice_type" (optNat (← readUeSafe))
    if pyEqNat (← dictIndex hdr "slice_type") 0 then
      hdr := dictSet hdr "slice_type" (.s "B")
    else if pyEqNat (← dictIndex hdr "slice_type") 1 then
      hdr := dictSet hdr "slice_type" (.s "P")
    else if pyEqNat (← dictIndex hdr "slice_type") 2 then
      hdr := dictSet hdr "slice_type" (.s "I")
    let st ← dictIndex hdr "slice_type"
    if !(pyEqStr st "B" || pyEqStr st "P" || pyEqStr st "I") then
      return .b false
    if pyTruthy (dictGetD pps "output_flag_present_flag" (.b false)) then
      hdr := dictSet hdr "pic_output_flag" (optBool (← readBoolSafe))
    if pyTruthy (dictGetD sps "separate_colour_plane_flag" (.b false)) then
      hdr := dictSet hdr "colour_plane_id" (optNat (← readUintSafe 2))
    if nalUnitType ≠ 19 ∧ nalUnitType ≠ 20 then
      hdr := dictSet hdr "slice_pic_order_cnt_lsb" (optNat (← readSlicePicOrderCntLsb sps))
      hdr := dictSet hdr "short_term_ref_pic_set_sps_flag" (optBool (← readBoolSafe))
      let numSets ← dictIndex sps "num_short_term_ref_pic_sets"
      if pyEqNat (dictGetD hdr "short_term_ref_pic_set_sps_flag" .none) 0 then
        let stRpsIdx := numSets
        hdr := dictSet hdr "short_term_ref_pic_set"
          (.dict (← parseShortTermRefPicSet stRpsIdx numSets))
      else
        let ns ← pyToInt numSets
        if ns > 1 then
          let bitLength ← ceilLog2 ns.toNat
          hdr := dictSet hdr "short_term_ref_pic_set_idx" (optNat (← readUintSafe bitLength))
      if pyTruthy (dictGetD sps "long_term_ref_pics_present_flag" (.b false)) then
        if pyIsNotNonePos (dictGetD sps "num_long_term_ref_pics_sps" (.n 0)) then
          hdr := dictSet hdr "num_long_term_sps" (optNat (← readUeSafe))
        hdr := dictSet hdr "num_long_term_pics" (optNat (← readUeSafe))
        hdr := dictSet hdr "lt_idx_sps" (.list [])
        hdr := dictSet hdr "poc_lsb_lt" (.list [])
        hdr := dictSet hdr "used_by_curr_pic_lt_flag" (.list [])
        hdr := dictSet hdr "delta_poc_msb_present_flag" (.list [])
        hdr := dictSet hdr "delta_poc_msb_cycle_lt" (.list [])
        let nSps ← pyToNat (← dictIndex hdr "num_long_term_sps")
        let nPics ← pyToNat (← dictIndex hdr "num_long_term_pics")
        let numLongTerm := nSps + nPics
        for _ in List.range numLongTerm do
          if nSps > 0 then
            let w ← ceilLog2 (← pyToNat (← dictIndex sps "num_long_term_ref_pics_sps"))
            if w ≠ 0 then
              hdr ← dictAppend hdr "lt_idx_sps" (optNat (← readUintSafe w))
            else
              hdr ← dictAppend hdr "lt_idx_sps" .none
          let lsbW₂ ← pyToNat (← dictIndex sps "log2_max_pic_order_cnt_lsb_minus4")
          hdr ← dictAppend hdr "poc_lsb_lt" (optNat (← readUintSafe (lsbW₂ + 4)))
          hdr ← dictAppend hdr "used_by_curr_pic_lt_flag" (optBool (← readBoolSafe))
          let msbFlag ← readBoolSafe
          hdr ← dictAppend hdr "delta_poc_msb_present_flag" (optBool msbFlag)
          if optTruthy msbFlag then
            hdr ← dictAppend hdr "delta_poc_msb_cycle_lt" (optNat (← readUeSafe))
          else
            hdr ← dictAppend hdr "delta_poc_msb_cycle_lt" .none
      if pyTruthy (dictGetD sps "sps_temporal_mvp_enabled_flag" (.b false)) then
        hdr := dictSet hdr "slice_temporal_mvp_enabled_flag" (optBool (← readBoolSafe))
    if pyTruthy (dictGetD sps "sample_adaptive_offset_enabled_flag" (.b false)) then
      hdr := dictSet hdr "slice_sao_luma_flag" (optBool (← readBoolSafe))
      let cfi := dictGetD sps "chroma_format_idc" (.n 1)
      let scp := dictGetD sps "separate_colour_plane_flag" (.n 0)
      let chromaArrayType := if pyEqNat cfi 3 && pyEqNat scp 1 then PyVal.n 0 else cfi
      if !pyEqNat chromaArrayType 0 then
        hdr := dictSet hdr "slice_sao_chroma_flag" (optBool (← readBoolSafe))
    if pyEqStr (← dictIndex hdr "slice_type") "B" || pyEqStr (← dictIndex hdr "slice_type") "P" then
      hdr := dictSet hdr "num_ref_idx_active_override_flag" (optBool (← readBoolSafe))
      if pyTruthy (dictGetD hdr "num_ref_idx_active_override_flag" .none) then
        hdr := dictSet hdr "num_ref_idx_l0_active_minus1" (optNat (← readUeSafe))
        if pyEqStr (← dictIndex hdr "slice_type") "B" then
          hdr := dictSet hdr "num_ref_idx_l1_active_minus1" (optNat (← readUeSafe))
      let mut numPocTotalCurr : Nat := 0
      let strps := dictGetD hdr "short_term_ref_pic_set" (.dict [])
      match strps with
      | .dict sd =>
        match dictGetD sd "used_by_curr_pic_flag" (.list []) with
        | .list flags => numPocTotalCurr := numPocTotalCurr + flags.length
        | _ => throw .typeError
      | _ => throw .attributeError
      match dictGetD hdr "used_by_curr_pic_lt_flag" (.list []) with
      | .list ltFlags =>
        for f in ltFlags do
          if pyTruthy f then
            numPocTotalCurr := numPocTotalCurr + 1
      | _ => throw .typeError
      if pyTruthy (dictGetD pps "lists_modification_present_flag" (.b false))
          ∧ numPocTotalCurr > 1 then
        hdr := dictSet hdr "ref_pic_lists_modification"
          (.dict (← parseRefPicListsModification hdr))
      if pyEqStr (← dictIndex hdr "slice_type") "B" then
        hdr := dictSet hdr "mvd_l1_zero_flag" (optBool (← readBoolSafe))
      if pyTruthy (dictGetD pps "cabac_init_present_flag" (.b false)) then
        hdr := dictSet hdr "cabac_init_flag" (optBool (← readBoolSafe))
      if pyTruthy (dictGetD hdr "slice_temporal_mvp_enabled_flag" .none) then
        if pyEqStr (← dictIndex hdr "slice_type") "B" then
          hdr := dictSet hdr "collocated_from_l0_flag" (optBool (← readBoolSafe))
        if (pyTruthy (dictGetD hdr "collocated_from_l0_flag" .none)
              && !(dictGetD hdr "num_ref_idx_l0_active_minus1" .none).isNone
              && pyIsNotNonePos (dictGetD hdr "num_ref_idx_l0_active_minus1" .none))
            || (!pyTruthy (dictGetD hdr "collocated_from_l0_flag" .none)
              && !(dictGetD hdr "num_ref_idx_l1_active_minus1" .none).isNone
              && pyIsNotNonePos (dictGetD hdr "num_ref_idx_l1_active_minus1" .none)) then
          hdr := dictSet hdr "collocated_ref_idx" (optNat (← readUeSafe))
      if (pyTruthy (dictGetD pps "weighted_pred_flag" (.b false))
            && pyEqStr (← dictIndex hdr "slice_type") "P")
          || (pyTruthy (dictGetD pps "weighted_bipred_flag" (.b false))
            && pyEqStr (← dictIndex hdr "slice_type") "B") then
        hdr := dictSet hdr "pred_weight_table"
          (.dict (← parsePredWeightTable hdr sps
            (dictGetD hdr "num_ref_idx_l0_active_minus1" .none)
            (dictGetD hdr "num_ref_idx_l1_active_minus1" .none)))
      hdr := dictSet hdr "five_minus_max_num_merge_cand" (optNat (← readUeSafe))
      if pyTruthy (dictGetD sps "sps_scc_extension_flag" (.b false)) then
        let sccExt := dictGetD sps "scc_extension" (.dict [])
        match sccExt with
        | .dict sd =>
          if pyEqNat (dictGetD sd "motion_vector_resolution_control_idc" (.n 0)) 2 then
            hdr := dictSet hdr "use_integer_mv_flag" (optBool (← readBoolSafe))
        | _ => throw .attributeError
    hdr := dictSet hdr "slice_qp_delta" (optInt (← readSeSafe))
    if pyTruthy (dictGetD pps "pps_slice_chroma_qp_offsets_present_flag" (.b false)) then
      hdr := dictSet hdr "slice_cb_qp_offset" (optInt (← readSeSafe))
      hdr := dictSet hdr "slice_cr_qp_offset" (optInt (← readSeSafe))
    if pyTruthy (dictGetD pps "pps_slice_act_qp_offsets_present_flag" (.b false)) then
      hdr := dictSet hdr "slice_act_y_qp_offset" (optInt (← readSeSafe))
      hdr := dictSet hdr "slice_act_cb_qp_offset" (optInt (← readSeSafe))
      hdr := dictSet hdr "slice_act_cr_qp_offset" (optInt (← readSeSafe))
    if pyTruthy (dictGetD pps "pps_range_extension" (.dict [])) then
      let rangeExt ← dictIndex pps "pps_range_extension"
      match rangeExt with
      | .dict rd =>
        if pyTruthy (dictGetD rd "chroma_qp_offset_list_enabled_flag" (.b false)) then
          hdr := dictSet hdr "cu_chroma_qp_offset_enabled_flag" (optBool (← readBoolSafe))
      | _ => throw .attributeError
    if pyTruthy (dictGetD pps "deblocking_filter_override_enabled_flag" (.b false)) then
      hdr := dictSet hdr "deblocking_filter_override_flag" (optBool (← readBoolSafe))
    if pyTruthy (dictGetD hdr "deblocking_filter_override_flag" .none) then
      hdr := dictSet hdr "slice_deblocking_filter_disabled_flag" (optBool (← readBoolSafe))
      if !pyTruthy (dictGetD hdr "slice_deblocking_filter_disabled_flag" .none) then
        hdr := dictSet hdr "slice_beta_offset_div2" (optInt (← readSeSafe))
        hdr := dictSet hdr "slice_tc_offset_div2" (optInt (← readSeSafe))
    if pyTruthy (dictGetD pps "pps_loop_filter_across_slices_enabled_flag" (.b false))
        ∧ (pyTruthy (dictGetD hdr "slice_sao_luma_flag" .none)
          ∨ pyTruthy (dictGetD hdr "slice_sao_chroma_flag" .none)
          ∨ !pyTruthy (dictGetD hdr "slice_deblocking_filter_disabled_flag" .none)) then
      hdr := dictSet hdr "slice_loop_filter_across_slices_enabled_flag" (optBool (← readBoolSafe))
  if pyTruthy (dictGetD pps "tiles_enabled_flag" (.b false))
      ∨ pyTruthy (dictGetD pps "entropy_coding_sync_enabled_flag" (.b false)) then
    hdr := dictSet hdr "num_entry_point_offsets" (optNat (← readUeSafe))
    if !(dictGetD hdr "num_entry_point_offsets" .none).isNone then
      if pyIsNotNonePos (dictGetD hdr "num_entry_point_offsets" .none) then
        hdr := dictSet hdr "offset_len_minus1" (optNat (← readUeSafe))
        let nOff ← pyToNat (← dictIndex hdr "num_entry_point_offsets")
        if nOff > 1000 then
          hdr := dictSet hdr "entry_point_offset_minus1" (.list [.none])
        else
          let w ← pyToNat (← dictIndex hdr "offset_len_minus1")
          let mut offsets : List PyVal := []
          for _ in List.range nOff do
            offsets := offsets ++ [optNat (← readUintSafe (w + 1))]
          hdr := dictSet hdr "entry_point_offset_minus1" (.list offsets)
  if pyTruthy (dictGetD pps "slice_segment_header_extension_present_flag" (.b false)) then
    hdr := dictSet hdr "slice_segment_header_extension_length" (optNat (← readUeSafe))
    let nExt ← pyToNat (← dictIndex hdr "slice_segment_header_extension_length")
    let mut extBytes : List PyVal := []
    for _ in List.range nExt do
      extBytes := extBytes ++ [optNat (← readUintSafe 8)]
    hdr := dictSet hdr "slice_segment_header_extension_data_byte" (.list extBytes)
  byteAlignment
  pure (.dict hdr)

/-- Embedding of hevc_parser.parse_slice_segment (lines 2108-2118): the
raw slice bytes become a fresh bit stream and the parsed header is
stored under the header key. -/
def parseSliceSegment (data : List Nat) (nalUnitType : Nat) (sps pps : Dict) :
    Except PyErr Dict := do
  let header ← StateT.run' (parseSliceSegmentHeader nalUnitType sps pps) ⟨bytesToBits data, 0⟩
  pure [("header", header)]

/-- Start-code scan of hevc_parser.parse_hevc_nal_units (line 142):
re.finditer with pattern 000001|00000001 yields non-overlapping matches
scanning left to right, trying the three-byte alternative first at each
position; each match is recorded as its (start, end) offsets. -/
def findStartCodes : List Nat → Nat → List (Nat × Nat)
  | 0 :: 0 :: 1 :: rest, i => (i, i + 3) :: findStartCodes rest (i + 3)
  | 0 :: 0 :: 0 :: 1 :: rest, i => (i, i + 4) :: findStartCodes rest (i + 4)
  | _ :: rest, i => findStartCodes rest (i + 1)
  | [], _ => []

/-- Segmentation step of hevc_parser.parse_hevc_nal_units (lines
144-155): each NAL unit spans from the start of its start code to the
start of the next one (or the end of the stream), start code included. -/
def nalSegments (data : List Nat) : List (Nat × Nat) → List (List Nat)
  | [] => []
  | (s, _) :: rest =>
    (match rest with
     | (s₂, _) :: _ => (data.drop s).take (s₂ - s)
     | [] => data.drop s) :: nalSegments data rest

/-- The NAL unit segments the H.265 framer produces for a stream. -/
def hevcNalUnitSegments (data : List Nat) : List (List Nat) :=
  nalSegments data (findStartCodes data 0)

/-- The segments the framer loop actually processes: the source skips
any unit whose total length is at most 8 bytes (hevc_parser.py lines
157-158) before appending it to nal_units or dispatching it to the
per-type lists, so only longer segments survive. -/
def hevcKeptNalUnits (data : List Nat) : List (List Nat) :=
  (hevcNalUnitSegments data).filter (fun u => 8 < u.length)

end Hevc

/-! ## Apple Photos trim analyzer

Embeds the per-video trim analysis of src/analyze/engines/apple.py
(duplicated inline in src/cli/main.py lines 71-325).  The ISO-BMFF box
walker (mp4_parser.py) that fills in the elst / ctts / stts tables is
not part of src/, so the shape of its entries is taken from the
specification. -/

/-- Modelled from the spec: mp4_parser.py (the ISO-BMFF box walker that
produces elst entries) is missing from src/.  Per spec section 4.5 an
elst entry carries media_time (signed; the four bytes 0xFFFFFFFF mean an
empty edit), and the analyzer compares the stored value against those
bytes (apple.py line 19). -/
inductive ElstMediaTime where
  | empty
  | val (t : Int)
deriving DecidableEq, Repr

/-- Embedding of the media_time selection loop (apple.py lines 17-22):
start from 0, skip empty edits, keep the last non-empty media_time. -/
def lastMediaTime (entries : List ElstMediaTime) : Int :=
  entries.foldl
    (fun acc e =>
      match e with
      | .empty => acc
      | .val t => t)
    0

/-- Embedding of the branch condition of apple.py line 29: the
no-leading-trim branch is taken when the raw media_time is 0, or when a
ctts box exists and media_time minus its first sample_offset is 0. -/
def noLeadingTrim (mt : Int) (ctts : Option Int) : Bool :=
  mt == 0 ||
    (match ctts with
     | some off => mt - off == 0
     | Option.none => false)

/-- Embedding of the media_time recomputation of the trim branch
(apple.py lines 55-64): the last non-empty media_time, minus the first
ctts sample_offset when a ctts box exists. -/
def trimMediaTime (entries : List ElstMediaTime) (ctts : Option Int) : Int :=
  match ctts with
  | some off => lastMediaTime entries - off
  | Option.none => lastMediaTime entries

/-- One stts run: sample_count samples of duration sample_delta. -/
structure SttsEntry where
  sample_count : Nat
  sample_delta : Nat
deriving DecidableEq, Repr

/-- Embedding of the stts expansion (apple.py lines 70-73):
stts_list.extend([sample_delta] * sample_count) over all runs. -/
def expandStts (entries : List SttsEntry) : List Nat :=
  entries.foldl (fun acc e => acc ++ List.replicate e.sample_count e.sample_delta) []

/-- Embedding of the start_offset scan (apple.py lines 75-82):
start_time and start_offset begin at 0; at each index the loop first
compares start_time with media_time, on success stores i - 1 and breaks,
otherwise adds the sample delta; without a break start_offset stays 0. -/
def sttsScanLoop (mediaTime : Int) : List Nat → Int → Nat → Int
  | [], _, _ => 0
  | d :: rest, startTime, i =>
    if startTime ≥ mediaTime then (i : Int) - 1
    else sttsScanLoop mediaTime rest (startTime + (d : Int)) (i + 1)

/-- The start_offset the analyzer computes for an expanded delta list. -/
def sttsStartOffset (deltas : List Nat) (mediaTime : Int) : Int :=
  sttsScanLoop mediaTime deltas 0 0

/-- Index version of the scan: the index at which the loop breaks, if
any. -/
def sttsScanFind (mediaTime : Int) : List Nat → Int → Nat → Option Nat
  | [], _, _ => Option.none
  | d :: rest, startTime, i =>
    if startTime ≥ mediaTime then some i
    else sttsScanFind mediaTime rest (startTime + (d : Int)) (i + 1)

/-- Outcome of the per-video trim analysis. -/
inductive TrimOutcome where
  | noTrimBranch
  | noSttsBranch
  | belowFirstDelta
  | startOffsetError
  | unrefRange (lo hi : Int)
deriving DecidableEq, Repr

/-- Embedding of the stts side of the trim branch (apple.py lines
66-87): with a non-empty stts whose first sample_delta is smaller than
media_time, expand the runs, scan for start_offset, raise the
Start offset Error exception when it is 0, and otherwise report the
unreferenced frame range [0, start_offset].  An empty stts falls through
to the fragmented-mp4 branch (line 164), which no claim exercises. -/
def analyzeTrimStts (entries : List SttsEntry) (mediaTime : Int) : TrimOutcome :=
  match entries with
  | [] => .noSttsBranch
  | e₀ :: _ =>
    if mediaTime > (e₀.sample_delta : Int) then
      let deltas := expandStts entries
      let off := sttsStartOffset deltas mediaTime
      if off = 0 then .startOffsetError else .unrefRange 0 off
    else .belowFirstDelta

/-- Embedding of the whole trim decision for one video (apple.py lines
17-87): choose the branch from the raw media_time, then in the trim
branch recompute media_time with the ctts correction and scan the stts
table. -/
def appleTrimOutcome (elst : List ElstMediaTime) (ctts : Option Int)
    (stts : List SttsEntry) : TrimOutcome :=
  if noLeadingTrim (lastMediaTime elst) ctts then .noTrimBranch
  else analyzeTrimStts stts (trimMediaTime elst ctts)

/-- Trim verdict printed in the no-leading-trim branch. -/
inductive Verdict where
  | unknown
  | edited
deriving DecidableEq, Repr

/-- Embedding of the H.264 classification of the no-leading-trim branch
(apple.py lines 30-46): note that for pic_order_cnt_type 0 the source
compares header.get(pic_order_cnt_lsb, the string zero) with the int 0,
and that types other than 0, 1, 2 (or type 1 with a non-I/SI slice)
print nothing, leaving the verdict absent. -/
def classifyNoTrimH264 (sps hdr : Dict) : Except PyErr (Option Verdict) := do
  let poc ← dictIndex sps "pic_order_cnt_type"
  if pyEqNat poc 0 then
    if pyEq (dictGetD hdr "pic_order_cnt_lsb" (.s "0")) (.n 0) then
      pure (some .unknown)
    else
      pure (some .edited)
  else if pyEqNat poc 1 then
    let st ← pyToNat (← dictIndex hdr "slice_type")
    if st % 5 = 2 ∨ st % 5 = 4 then
      pure (some .unknown)
    else
      pure Option.none
  else if pyEqNat poc 2 then
    if pyEq (← dictIndex hdr "frame_num") (.n 0) then
      pure (some .unknown)
    else
      pure (some .edited)
  else
    pure Option.none

/-- Embedding of the H.265 classification of the no-leading-trim branch
(apple.py lines 48-52): the verdict is unknown exactly when
header.get(pic_order_cnt_lsb, 0) equals 0.  The H.265 slice parser
stores the value under the key slice_pic_order_cnt_lsb, never under
pic_order_cnt_lsb, so the default always wins. -/
def classifyNoTrimH265 (hdr : Dict) : Verdict :=
  if pyEq (dictGetD hdr "pic_order_cnt_lsb" (.n 0)) (.n 0) then .unknown else .edited

/-! ## Least-index machinery for the prefix-sum characterization -/

/-- First index at or after i, within fuel steps, satisfying p. -/
def leastIdxAux (p : Nat → Bool) : Nat → Nat → Option Nat
  | 0, _ => Option.none
  | fuel + 1, i => if p i then some i else leastIdxAux p fuel (i + 1)

/-- Whether the sum of the first i deltas meets or exceeds t. -/
def prefixReaches (deltas : List Nat) (t : Int) (i : Nat) : Bool :=
  t ≤ ((deltas.take i).sum : Int)

/-- The least index i (up to and including the full length) whose
prefix sum of deltas meets or exceeds t. -/
def leastReachIdx (deltas : List Nat) (t : Int) : Option Nat :=
  leastIdxAux (prefixReaches deltas t) (deltas.length + 1) 0

/-! ## Concrete inputs exercised by the claims -/

/-- Nat value stored under a key of a dict, if any. -/
def dictNat? (d : Dict) (k : String) : Option Nat :=
  match dictGet? d k with
  | some (.n m) => some m
  | _ => Option.none

/-- Nat field of a parse result that yielded a dict. -/
def spsNatField (r : Except PyErr Dict) (k : String) : Option Nat :=
  match r with
  | .ok d => dictNat? d k
  | .error _ => Option.none

/-- The H.264 SPS NAL bytes of spec scenario 1 (no start code, first
byte is the NAL header). -/
def c7SpsBytes : List Nat := [0x67, 0x42, 0xC0, 0x1E, 0xD9, 0x01, 0x40, 0x7B, 0x20]

/-- The scenario bytes pushed through the NAL-unit parse path: the NAL
header is decoded, the payload is EPB-stripped, and for nal_type 7 the
pipeline (parse_h264_nal_units, line 226) hands raw_data to parse_sps. -/
def c7Sps : Except PyErr Dict := do
  let nal ← H264.parseNalUnit c7SpsBytes false
  match dictGet? nal "raw_data" with
  | some (.bytes d) => H264.parseSps d
  | _ => throw .typeError

/-- Raw slice-segment bytes of a non-IDR H.265 slice: first slice in
pic, pps id 0, slice_type I, slice_pic_order_cnt_lsb 5, short-term RPS
taken from the SPS, qp delta 0, then alignment padding. -/
def c1SliceBytes : List Nat := [0xDA, 0xE0]

/-- Minimal SPS state for the C1 slice: 4-bit POC lsb and no short-term
reference picture sets. -/
def c1Sps : Dict :=
  [("log2_max_pic_order_cnt_lsb_minus4", .n 0),
   ("num_short_term_ref_pic_sets", .n 0)]

/-- Minimal PPS state for the C1 slice (every flag absent). -/
def c1Pps : Dict := []

/-- The header dict parsed from the C1 slice bytes as nal_unit_type 1. -/
def c1HeaderDict : Option Dict :=
  match Hevc.parseSliceSegment c1SliceBytes 1 c1Sps c1Pps with
  | .ok d =>
    match dictGet? d "header" with
    | some (.dict h) => some h
    | _ => Option.none
  | .error _ => Option.none

/-! ## Helper lemmas -/

theorem removeEpb_of_no_window :
    ∀ l : List Nat, containsEpbWindow l = false → removeEmulationPreventionBytes l = l := by
  intro l
  induction l using removeEmulationPreventionBytes.induct with
  | case1 => intro _; rfl
  | case2 a => intro _; rfl
  | case3 a b => intro _; rfl
  | case4 a b c rest h ih =>
    intro hc
    rw [containsEpbWindow, if_pos h] at hc
    exact absurd hc (by simp)
  | case5 a b c rest h ih =>
    intro hc
    rw [containsEpbWindow, if_neg h] at hc
    rw [removeEmulationPreventionBytes, if_neg h, ih hc]

theorem leastIdxAux_spec (p : Nat → Bool) :
    ∀ (fuel i j : Nat), leastIdxAux p fuel i = some j →
      p j = true ∧ i ≤ j ∧ ∀ m, i ≤ m → m < j → p m = false := by
  intro fuel
  induction fuel with
  | zero => intro i j h; simp [leastIdxAux] at h
  | succ n ih =>
    intro i j h
    rw [leastIdxAux] at h
    by_cases hp : p i = true
    · rw [if_pos hp] at h
      cases h
      exact ⟨hp, le_refl _, fun m him hmj => absurd (lt_of_le_of_lt him hmj) (lt_irrefl _)⟩
    · rw [if_neg hp] at h
      obtain ⟨hpj, hij, hmin⟩ := ih (i + 1) j h
      refine ⟨hpj, by omega, ?_⟩
      intro m him hmj
      rcases Nat.eq_or_lt_of_le him with he | hl
      · rw [← he]
        revert hp
        cases p i <;> simp
      · exact hmin m hl hmj

theorem sttsScanFind_of_least :
    ∀ (ds : List Nat) (t acc : Int) (i k : Nat),
      (∀ m, m < k → ¬ (t ≤ acc + (((ds.take m).sum : Nat) : Int))) →
      (t ≤ acc + (((ds.take k).sum : Nat) : Int)) →
      k < ds.length →
      sttsScanFind t ds acc i = some (i + k) := by
  intro ds
  induction ds with
  | nil => intro t acc i k hmin hk hlt; simp at hlt
  | cons d rest ih =>
    intro t acc i k hmin hk hlt
    rw [sttsScanFind]
    by_cases h0 : acc ≥ t
    · rw [if_pos h0]
      have hk0 : k = 0 := by
        by_contra hne
        have hcontra := hmin 0 (Nat.pos_of_ne_zero hne)
        simp at hcontra
        omega
      subst hk0
      simp
    · rw [if_neg h0]
      have hk1 : 1 ≤ k := by
        rcases Nat.eq_zero_or_pos k with rfl | h
        · simp at hk
          exact absurd hk h0
        · exact h
      have hres := ih t (acc + (d : Int)) (i + 1) (k - 1)
        (by
          intro m hm
          have hm1 := hmin (m + 1) (by omega)
          intro hc
          apply hm1
          simp only [List.take_succ_cons, List.sum_cons, Nat.cast_add]
          push_cast
          push_cast at hc
          linarith)
        (by
          have hk2 : k - 1 + 1 = k := by omega
          rw [← hk2] at hk
          simp only [List.take_succ_cons, List.sum_cons, Nat.cast_add] at hk
          push_cast at hk
          push_cast
          linarith)
        (by
          simp only [List.length_cons] at hlt
          omega)
      rw [hres]
      congr 1
      omega

theorem sttsScanLoop_eq_find :
    ∀ (ds : List Nat) (t acc : Int) (i : Nat),
      sttsScanLoop t ds acc i =
        (match sttsScanFind t ds acc i with
         | some j => (j : Int) - 1
         | Option.none => 0) := by
  intro ds
  induction ds with
  | nil => intro t acc i; rfl
  | cons d rest ih =>
    intro t acc i
    rw [sttsScanLoop, sttsScanFind]
    by_cases h0 : acc ≥ t
    · rw [if_pos h0, if_pos h0]
    · rw [if_neg h0, if_neg h0, ih]

theorem expandStts_foldl :
    ∀ (entries : List SttsEntry) (acc : List Nat),
      List.foldl (fun a e => a ++ List.replicate e.sample_count e.sample_delta) acc entries
        = acc ++ expandStts entries := by
  intro entries
  induction entries with
  | nil => intro acc; simp [expandStts]
  | cons e tl ih =>
    intro acc
    have hcons : expandStts (e :: tl)
        = List.replicate e.sample_count e.sample_delta ++ expandStts tl := by
      show List.foldl _ _ _ = _
      rw [List.foldl_cons, List.nil_append, ih]
    rw [List.foldl_cons, ih, hcons, List.append_assoc]

theorem expandStts_cons (e : SttsEntry) (tl : List SttsEntry) :
    expandStts (e :: tl) = List.replicate e.sample_count e.sample_delta ++ expandStts tl := by
  show List.foldl _ [] (e :: tl) = _
  rw [List.foldl_cons, List.nil_append, expandStts_foldl]

theorem hevc_readUeSafe_total (bs : BitSt) :
    ∃ r bs₂, Hevc.readUeSafe bs = .ok (r, bs₂) := by
  unfold Hevc.readUeSafe
  split
  · split <;> exact ⟨_, _, rfl⟩
  · exact ⟨_, _, rfl⟩

theorem hevc_readUintSafe_total (n : Nat) (bs : BitSt) :
    ∃ r bs₂, Hevc.readUintSafe n bs = .ok (r, bs₂) := by
  unfold Hevc.readUintSafe
  split <;> exact ⟨_, _, rfl⟩

theorem hevc_readBoolSafe_total (bs : BitSt) :
    ∃ r bs₂, Hevc.readBoolSafe bs = .ok (r, bs₂) := by
  unfold Hevc.readBoolSafe
  split <;> exact ⟨_, _, rfl⟩

/-! ## Claim theorems -/

/-- C1: the claim says that in the no-leading-trim branch an H.265 video
is classified unknown exactly when the parsed pic_order_cnt_lsb of the
first slice segment header is 0, and edited otherwise.  Evaluating the
code at a slice whose header parses with slice_pic_order_cnt_lsb = 5
shows the bug: the HEVC parser stores the value under the key
slice_pic_order_cnt_lsb, the analyzer looks up pic_order_cnt_lsb with
default 0, so the key is never found and the verdict is unknown even
though the parsed lsb is nonzero. -/
theorem c1_hevc_poc_key_mismatch :
    (c1HeaderDict.map fun h => dictNat? h "slice_pic_order_cnt_lsb") = some (some 5)
    ∧ (c1HeaderDict.map fun h => (dictGet? h "pic_order_cnt_lsb").isSome) = some false
    ∧ c1HeaderDict.map classifyNoTrimH265 = some .unknown :=
  ⟨rfl, rfl, rfl⟩

/-- C4: the claim says every bit-level read returns an error value
instead of raising, so no malformed NAL payload ends in an uncaught
exception.  The code contradicts it twice: h264_parser.read_ue_safe
re-raises ReadError on an Exp-Golomb code crossing the buffer end (a
single 0x00 byte), and h264_parser.parse_sei raises ValueError when a
declared payload size exceeds the remaining buffer (bytes 00 05). -/
theorem c4_truncated_reads_raise :
    H264.readUeSafe ⟨bytesToBits [0], 0⟩ = .error .readError
    ∧ H264.parseSei [0, 5] = .error .valueError :=
  ⟨rfl, rfl⟩

/-- C5 counterexample: EPB stripping is not idempotent.  On the legal
escape sequence 00 00 03 03 one application yields 00 00 03 and a second
application strips again, yielding 00 00. -/
theorem c5_epb_not_idempotent :
    removeEmulationPreventionBytes [0, 0, 3, 3] = [0, 0, 3]
    ∧ removeEmulationPreventionBytes (removeEmulationPreventionBytes [0, 0, 3, 3]) = [0, 0]
    ∧ removeEmulationPreventionBytes (removeEmulationPreventionBytes [0, 0, 3, 3])
        ≠ removeEmulationPreventionBytes [0, 0, 3, 3] := by
  decide

/-- C5 amended: EPB stripping is idempotent on every byte string whose
stripped form contains no remaining 00 00 03 window; a second
application is then the identity. -/
theorem c5_epb_idempotent_amended :
    ∀ d : List Nat, containsEpbWindow (removeEmulationPreventionBytes d) = false →
      removeEmulationPreventionBytes (removeEmulationPreventionBytes d)
        = removeEmulationPreventionBytes d :=
  fun _ h => removeEpb_of_no_window _ h

/-- C5 witness: the amended idempotence at the concrete input
00 00 03 01, whose stripped form 00 00 01 has no EPB window left. -/
theorem c5_epb_idempotent_amended_witness :
    containsEpbWindow (removeEmulationPreventionBytes [0, 0, 3, 1]) = false
    ∧ removeEmulationPreventionBytes (removeEmulationPreventionBytes [0, 0, 3, 1])
        = removeEmulationPreventionBytes [0, 0, 3, 1] :=
  ⟨by decide, c5_epb_idempotent_amended [0, 0, 3, 1] (by decide)⟩

/-- C7 counterexample: parsing the scenario SPS bytes through the
NAL-unit parse path yields pic_order_cnt_type 2, not the claimed 0 (the
remaining bits of byte 0xD9 after the two one-bit Exp-Golomb codes start
with 011, which decodes to 2). -/
theorem c7_sps_poc_type_counterexample :
    spsNatField c7Sps "pic_order_cnt_type" = some 2
    ∧ spsNatField c7Sps "pic_order_cnt_type" ≠ some 0 := by
  constructor
  · rfl
  · intro h
    have h1 : spsNatField c7Sps "pic_order_cnt_type" = some 2 := rfl
    rw [h1] at h
    simp at h

/-- C7 amended: the scenario bytes parse to profile_idc 66, level_idc
30, seq_parameter_set_id 0, log2_max_frame_num_minus4 0 and
pic_order_cnt_type 2. -/
theorem c7_sps_parse_amended :
    spsNatField c7Sps "profile_idc" = some 66
    ∧ spsNatField c7Sps "level_idc" = some 30
    ∧ spsNatField c7Sps "seq_parameter_set_id" = some 0
    ∧ spsNatField c7Sps "log2_max_frame_num_minus4" = some 0
    ∧ spsNatField c7Sps "pic_order_cnt_type" = some 2 :=
  ⟨rfl, rfl, rfl, rfl, rfl⟩

/-- C8: the claim (following the spec) says a computed start_offset of 0
is surfaced as a non-fatal edited-no-unreferenced-frames verdict; the
code instead raises Exception at apple.py line 85.  Evaluating the
analyzer at media_time 200 over stts [{count 1, delta 100}] (so the scan
never breaks and start_offset stays 0) reaches the raise. -/
theorem c8_start_offset_zero_raises :
    appleTrimOutcome [.val 200] Option.none [⟨1, 100⟩] = .startOffsetError := by
  decide

/-- C2 counterexample: for the final non-empty media_time 150 over
stts [{count 2, delta 100}], the smallest index whose prefix sum reaches
150 is 2, so the claim predicts the range [0, 1]; the code computes
start_offset 0 (the scan checks only strictly before the last sample)
and raises the start-offset exception instead. -/
theorem c2_scan_edge_counterexample :
    leastReachIdx (expandStts [⟨2, 100⟩]) (trimMediaTime [.val 150] Option.none) = some 2
    ∧ appleTrimOutcome [.val 150] Option.none [⟨2, 100⟩] = .startOffsetError
    ∧ appleTrimOutcome [.val 150] Option.none [⟨2, 100⟩] ≠ .unrefRange 0 1 := by
  refine ⟨by decide, by decide, by decide⟩

/-- C2 amended: in the trim branch (non-empty stts whose first run has a
positive count, media_time T above the first sample delta), whenever the
smallest index j whose prefix sum of the expanded deltas meets or
exceeds T lies strictly below the number of samples, the analyzer
reports the unreferenced range [0, j - 1]; j is indeed the least such
index.  (When only the total sum reaches T, or none does, the code
instead raises the start-offset exception, per the C2 counterexample.) -/
theorem c2_trim_range_amended :
    ∀ (elst : List ElstMediaTime) (ctts : Option Int) (e₀ : SttsEntry)
      (tl : List SttsEntry) (j : Nat),
      noLeadingTrim (lastMediaTime elst) ctts = false →
      0 < e₀.sample_count →
      trimMediaTime elst ctts > (e₀.sample_delta : Int) →
      leastReachIdx (expandStts (e₀ :: tl)) (trimMediaTime elst ctts) = some j →
      j < (expandStts (e₀ :: tl)).length →
      appleTrimOutcome elst ctts (e₀ :: tl) = .unrefRange 0 ((j : Int) - 1)
      ∧ prefixReaches (expandStts (e₀ :: tl)) (trimMediaTime elst ctts) j = true
      ∧ ∀ m, m < j →
          prefixReaches (expandStts (e₀ :: tl)) (trimMediaTime elst ctts) m = false := by
  intro elst ctts e₀ tl j hgate hcount hT hleast hjlen
  obtain ⟨hpj, -, hmin0⟩ := leastIdxAux_spec _ _ _ _ hleast
  have hmin : ∀ m, m < j →
      prefixReaches (expandStts (e₀ :: tl)) (trimMediaTime elst ctts) m = false :=
    fun m hm => hmin0 m (Nat.zero_le m) hm
  have hreach : trimMediaTime elst ctts ≤ (((expandStts (e₀ :: tl)).take j).sum : Int) := by
    simpa [prefixReaches, decide_eq_true_eq] using hpj
  have hfind : sttsScanFind (trimMediaTime elst ctts) (expandStts (e₀ :: tl)) 0 0
      = some (0 + j) := by
    apply sttsScanFind_of_least
    · intro m hm
      have hf := hmin m hm
      simp only [prefixReaches, decide_eq_false_iff_not] at hf
      intro hc
      apply hf
      linarith
    · simpa using hreach
    · exact hjlen
  have hhead : (expandStts (e₀ :: tl)).take 1 = [e₀.sample_delta] := by
    rw [expandStts_cons]
    obtain ⟨c, hc⟩ := Nat.exists_eq_succ_of_ne_zero (Nat.pos_iff_ne_zero.mp hcount)
    rw [hc, List.replicate_succ]
    rfl
  have hj0 : prefixReaches (expandStts (e₀ :: tl)) (trimMediaTime elst ctts) 0 = false := by
    simp only [prefixReaches, decide_eq_false_iff_not, List.take_zero, List.sum_nil,
      Nat.cast_zero]
    have hd : (0 : Int) ≤ (e₀.sample_delta : Int) := Int.ofNat_nonneg _
    omega
  have hj1 : prefixReaches (expandStts (e₀ :: tl)) (trimMediaTime elst ctts) 1 = false := by
    simp only [prefixReaches, decide_eq_false_iff_not, hhead, List.sum_cons, List.sum_nil,
      Nat.add_zero]
    omega
  have hj2 : 2 ≤ j := by
    rcases Nat.lt_or_ge j 2 with h2 | h2
    · interval_cases j
      · rw [hj0] at hpj; cases hpj
      · rw [hj1] at hpj; cases hpj
    · exact h2
  have hoff : sttsStartOffset (expandStts (e₀ :: tl)) (trimMediaTime elst ctts)
      = (j : Int) - 1 := by
    rw [sttsStartOffset, sttsScanLoop_eq_find, hfind]
    simp
  refine ⟨?_, hpj, hmin⟩
  unfold appleTrimOutcome
  rw [hgate]
  simp only [Bool.false_eq_true, if_false, analyzeTrimStts]
  rw [if_pos hT, hoff, if_neg (by omega)]

/-- C2 witness: the amended statement at the spec scenario, media_time
1200 over stts [{count 30, delta 100}]; the least reaching index is 12
and the reported range is [0, 11]. -/
theorem c2_trim_range_amended_witness :
    noLeadingTrim (lastMediaTime [.val 1200]) Option.none = false
    ∧ leastReachIdx (expandStts [⟨30, 100⟩]) (trimMediaTime [.val 1200] Option.none) = some 12
    ∧ appleTrimOutcome [.val 1200] Option.none [⟨30, 100⟩] = .unrefRange 0 11 := by
  refine ⟨by decide, by decide, ?_⟩
  have h := (c2_trim_range_amended [.val 1200] Option.none ⟨30, 100⟩ [] 12
    (by decide) (by decide) (by decide) (by decide) (by decide)).1
  simpa using h

/-- C9: with pic_order_cnt_type 1 and a first slice whose slice_type
mod 5 is neither 2 nor 4, the no-leading-trim classifier prints nothing:
the verdict is absent (the source only handles the I/SI case in this
branch). -/
theorem c9_poc_type1_non_intra_no_verdict :
    ∀ (sps hdr : Dict) (st : Nat),
      dictGet? sps "pic_order_cnt_type" = some (.n 1) →
      dictGet? hdr "slice_type" = some (.n st) →
      st % 5 ≠ 2 → st % 5 ≠ 4 →
      classifyNoTrimH264 sps hdr = .ok Option.none := by
  intro sps hdr st h1 h2 h3 h4
  simp [classifyNoTrimH264, dictIndex, h1, h2, pyEqNat, pyToNat, h3, h4,
    Bind.bind, Except.bind, pure, Except.pure]

/-- C9 witness: the classifier at a concrete SPS with
pic_order_cnt_type 1 and a first slice of type 0 (P) yields no verdict. -/
theorem c9_poc_type1_non_intra_no_verdict_witness :
    classifyNoTrimH264 [("pic_order_cnt_type", .n 1)] [("slice_type", .n 0)]
      = .ok Option.none :=
  c9_poc_type1_non_intra_no_verdict [("pic_order_cnt_type", .n 1)] [("slice_type", .n 0)] 0
    rfl rfl (by decide) (by decide)

/-- C10: every NAL unit segment of the H.265 framer whose total length,
start code included, is at most 8 bytes is excluded from the units the
framer keeps (the source skips it before appending to nal_units or any
per-type parsed list). -/
theorem c10_short_nal_units_dropped :
    ∀ (data u : List Nat),
      u ∈ Hevc.hevcNalUnitSegments data → u.length ≤ 8 →
      u ∉ Hevc.hevcKeptNalUnits data := by
  intro data u _ hlen hmem
  have hkeep := (List.mem_filter.mp hmem).2
  simp only [decide_eq_true_eq] at hkeep
  omega

/-- C10 witness: a complete, valid 7-byte AUD unit (start code,
nal_type 35 header, one payload byte) between the framer segments of a
concrete stream is dropped from the kept units. -/
theorem c10_short_nal_units_dropped_witness :
    [0, 0, 0, 1, 70, 1, 80]
        ∈ Hevc.hevcNalUnitSegments
            [0, 0, 0, 1, 64, 1, 9, 9, 9, 9, 9, 0, 0, 0, 1, 70, 1, 80]
    ∧ [0, 0, 0, 1, 70, 1, 80]
        ∉ Hevc.hevcKeptNalUnits
            [0, 0, 0, 1, 64, 1, 9, 9, 9, 9, 9, 0, 0, 0, 1, 70, 1, 80] :=
  ⟨by decide,
   c10_short_nal_units_dropped _ _ (by decide) (by decide)⟩

/-- C6: the frame_num read of the H.264 slice-header parser consumes
exactly sps[log2_max_frame_num_minus4] + 4 bits, and the
pic_order_cnt_lsb reads of the H.264 slice-header parser (POC type 0)
and of the H.265 slice-segment-header parser (non-IDR) consume exactly
sps[log2_max_pic_order_cnt_lsb_minus4] + 4 bits: whenever that many bits
remain, each read succeeds, returns their MSB-first value and advances
the cursor by exactly that width. -/
theorem c6_slice_field_bit_widths :
    (∀ (sps : Dict) (k : Nat) (bs : BitSt),
      dictGet? sps "log2_max_frame_num_minus4" = some (.n k) →
      bs.pos + (k + 4) ≤ bs.len →
      H264.readFrameNum sps bs
        = .ok (some (binVal ((bs.data.drop bs.pos).take (k + 4))),
               ⟨bs.data, bs.pos + (k + 4)⟩))
    ∧ (∀ (sps : Dict) (k : Nat) (bs : BitSt),
      dictGet? sps "log2_max_pic_order_cnt_lsb_minus4" = some (.n k) →
      bs.pos + (k + 4) ≤ bs.len →
      H264.readPicOrderCntLsb sps bs
        = .ok (some (binVal ((bs.data.drop bs.pos).take (k + 4))),
               ⟨bs.data, bs.pos + (k + 4)⟩))
    ∧ (∀ (sps : Dict) (k : Nat) (bs : BitSt),
      dictGet? sps "log2_max_pic_order_cnt_lsb_minus4" = some (.n k) →
      bs.pos + (k + 4) ≤ bs.len →
      Hevc.readSlicePicOrderCntLsb sps bs
        = .ok (some (binVal ((bs.data.drop bs.pos).take (k + 4))),
               ⟨bs.data, bs.pos + (k + 4)⟩)) := by
  refine ⟨?_, ?_, ?_⟩ <;>
  · intro sps k bs h hle
    first
    | (simp [H264.readFrameNum, H264.readUintSafe, dictIndex, h, pyToNat, hle,
        Bind.bind, StateT.bind, StateT.lift, Except.bind, BitSt.len,
        monadLift, MonadLift.monadLift, liftM, pure, Except.pure, StateT.pure]
       exact hle)
    | (simp [H264.readPicOrderCntLsb, H264.readUintSafe, dictIndex, h, pyToNat, hle,
        Bind.bind, StateT.bind, StateT.lift, Except.bind, BitSt.len,
        monadLift, MonadLift.monadLift, liftM, pure, Except.pure, StateT.pure]
       exact hle)
    | (simp [Hevc.readSlicePicOrderCntLsb, Hevc.readUintSafe, dictIndex, h, pyToNat, hle,
        Bind.bind, StateT.bind, StateT.lift, Except.bind, BitSt.len,
        monadLift, MonadLift.monadLift, liftM, pure, Except.pure, StateT.pure]
       exact hle)

/-- C6 witness: the three reads at log2-minus4 value 0 over the byte
0xA5: each consumes exactly four bits. -/
theorem c6_slice_field_bit_widths_witness :
    H264.readFrameNum [("log2_max_frame_num_minus4", .n 0)] ⟨bytesToBits [165], 0⟩
      = .ok (some (binVal (((bytesToBits [165]).drop 0).take (0 + 4))),
             ⟨bytesToBits [165], 0 + (0 + 4)⟩)
    ∧ H264.readPicOrderCntLsb [("log2_max_pic_order_cnt_lsb_minus4", .n 0)]
        ⟨bytesToBits [165], 0⟩
      = .ok (some (binVal (((bytesToBits [165]).drop 0).take (0 + 4))),
             ⟨bytesToBits [165], 0 + (0 + 4)⟩)
    ∧ Hevc.readSlicePicOrderCntLsb [("log2_max_pic_order_cnt_lsb_minus4", .n 0)]
        ⟨bytesToBits [165], 0⟩
      = .ok (some (binVal (((bytesToBits [165]).drop 0).take (0 + 4))),
             ⟨bytesToBits [165], 0 + (0 + 4)⟩) :=
  ⟨c6_slice_field_bit_widths.1 [("log2_max_frame_num_minus4", .n 0)] 0
      ⟨bytesToBits [165], 0⟩ rfl (by decide),
   c6_slice_field_bit_widths.2.1 [("log2_max_pic_order_cnt_lsb_minus4", .n 0)] 0
      ⟨bytesToBits [165], 0⟩ rfl (by decide),
   c6_slice_field_bit_widths.2.2 [("log2_max_pic_order_cnt_lsb_minus4", .n 0)] 0
      ⟨bytesToBits [165], 0⟩ rfl (by decide)⟩

/-- C3: the claim says a short-term RPS parsed with
inter_ref_pic_set_prediction_flag 1 reads exactly NumDeltaPocs(refRps)
+ 1 used_by_curr_pic_flag values.  The code hard-codes NumDeltaPocs to 0
(hevc_parser.py line 1012, against its own comment), so for every
bitstream whose inter flag bit reads 1 the parser reads exactly one
used_by_curr_pic_flag, regardless of the reference picture set: the
claim fails whenever NumDeltaPocs(refRps) is nonzero. -/
theorem c3_inter_rps_reads_single_flag :
    ∀ (stRpsIdx numSets : PyVal) (bs : BitSt),
      pyEqNat stRpsIdx 0 = false →
      bs.pos < bs.len →
      bs.data.getD bs.pos false = true →
      ∃ (d : Dict) (bs₂ : BitSt),
        Hevc.parseShortTermRefPicSet stRpsIdx numSets bs = .ok (d, bs₂)
        ∧ ∃ l, dictGet? d "used_by_curr_pic_flag" = some (.list l) ∧ l.length = 1 := by
  intro stRpsIdx numSets bs hidx hpos hbit
  have hread : Hevc.readBoolSafe bs = .ok (some true, ⟨bs.data, bs.pos + 1⟩) := by
    unfold Hevc.readBoolSafe
    rw [if_pos hpos, hbit]
  unfold Hevc.parseShortTermRefPicSet
  by_cases hq : pyEq stRpsIdx numSets = true
  · obtain ⟨v1, s1, h1⟩ := hevc_readUeSafe_total ⟨bs.data, bs.pos + 1⟩
    obtain ⟨v2, s2, h2⟩ := hevc_readUintSafe_total 1 s1
    obtain ⟨v3, s3, h3⟩ := hevc_readUeSafe_total s2
    obtain ⟨v4, s4, h4⟩ := hevc_readBoolSafe_total s3
    obtain ⟨v5, s5, h5⟩ := hevc_readBoolSafe_total s4
    rcases v4 with _ | b
    · simp [hidx, hq, hread, h1, h2, h3, h4, h5, Bind.bind, StateT.bind, Except.bind,
        optTruthy, dictSet, dictGet?, dictAppend, optBool, pure, StateT.pure, Except.pure,
        List.range_succ, liftM, monadLift, MonadLift.monadLift, StateT.lift]
    · cases b
      · simp [hidx, hq, hread, h1, h2, h3, h4, h5, Bind.bind, StateT.bind, Except.bind,
          optTruthy, dictSet, dictGet?, dictAppend, optBool, pure, StateT.pure, Except.pure,
          List.range_succ, liftM, monadLift, MonadLift.monadLift, StateT.lift]
      · simp [hidx, hq, hread, h1, h2, h3, h4, h5, Bind.bind, StateT.bind, Except.bind,
          optTruthy, dictSet, dictGet?, dictAppend, optBool, pure, StateT.pure, Except.pure,
          List.range_succ, liftM, monadLift, MonadLift.monadLift, StateT.lift]
  · obtain ⟨v2, s2, h2⟩ := hevc_readUintSafe_total 1 ⟨bs.data, bs.pos + 1⟩
    obtain ⟨v3, s3, h3⟩ := hevc_readUeSafe_total s2
    obtain ⟨v4, s4, h4⟩ := hevc_readBoolSafe_total s3
    obtain ⟨v5, s5, h5⟩ := hevc_readBoolSafe_total s4
    rcases v4 with _ | b
    · simp [hidx, hq, hread, h2, h3, h4, h5, Bind.bind, StateT.bind, Except.bind,
        optTruthy, dictSet, dictGet?, dictAppend, optBool, pure, StateT.pure, Except.pure,
        List.range_succ, liftM, monadLift, MonadLift.monadLift, StateT.lift]
    · cases b
      · simp [hidx, hq, hread, h2, h3, h4, h5, Bind.bind, StateT.bind, Except.bind,
          optTruthy, dictSet, dictGet?, dictAppend, optBool, pure, StateT.pure, Except.pure,
          List.range_succ, liftM, monadLift, MonadLift.monadLift, StateT.lift]
      · simp [hidx, hq, hread, h2, h3, h4, h5, Bind.bind, StateT.bind, Except.bind,
          optTruthy, dictSet, dictGet?, dictAppend, optBool, pure, StateT.pure, Except.pure,
          List.range_succ, liftM, monadLift, MonadLift.monadLift, StateT.lift]

/-- C3 witness: a short-term RPS at st_rps_idx 1 of 1 set over an
all-ones bitstream parses with exactly one used_by_curr_pic_flag. -/
theorem c3_inter_rps_reads_single_flag_witness :
    ∃ (d : Dict) (bs₂ : BitSt),
      Hevc.parseShortTermRefPicSet (.n 1) (.n 1) ⟨bytesToBits [255], 0⟩ = .ok (d, bs₂)
      ∧ ∃ l, dictGet? d "used_by_curr_pic_flag" = some (.list l) ∧ l.length = 1 :=
  c3_inter_rps_reads_single_flag (.n 1) (.n 1) ⟨bytesToBits [255], 0⟩
    (by decide) (by decide) (by decide)

end Miat
